import Mathlib

/-!
# Fizeau overlay: the editing session of `overlay/src/main.cpp`

A shallow embedding of `fz::FizeauOverlayGui`: its members become a record, every
listener registered in `createUI`, `update()` and the destructor become functions on
that record which also return the calls made to the collaborators (`config.apply()`,
`config.write()`, `tsl::changeTo<ErrorGui>`, ...) as a list of effects.

Conventions.
* `Temperature` is a 32-bit unsigned Kelvin value (it is printed with `%u`); its
  arithmetic is written on `Int` with an explicit reduction modulo `2^32` after every
  operation, and the `u8` argument of `setProgress` is reduced modulo `2^8`.
* The floating-point members (saturation, hue, contrast, gamma, luminance, range) are
  carried as exact rationals: binary32 rounding is outside this development.
* The numeric limits (`MIN_TEMP`, `MAX_SAT`, `DEFAULT_RANGE`, ...) are declared in
  `common.hpp`, not in `main.cpp`; they are the fields of `Limits` and every function
  takes them as a parameter.
* `apply_counter` is an `int`; it is carried as an integer without wrap-around, the
  only increment being guarded by a reset at 3.
-/

namespace Fizeau

/-! ## Machine arithmetic -/

/-- Reduction of an integer to an unsigned 32-bit value. -/
def u32 (x : Int) : Int := x % 4294967296

/-- Reduction of an integer to an unsigned 8-bit value (`std::uint8_t`, `u8`). -/
def u8 (x : Int) : Int := x % 256

/-- Conversion of a floating-point value to `u8`: the fractional part is discarded
(truncation toward zero), then the value is reduced to 8 bits. -/
def f2u8 (q : ℚ) : Int := u8 (Int.tdiv q.num q.den)

/-- libnx `BIT(n)`, that is `1U << n` on 32 bits. -/
def BIT (n : Nat) : Nat := 2 ^ n % 4294967296

/-- Worker of `countr_zero`: number of trailing zero bits among the low `fuel` bits. -/
def countr_zero_aux : Nat → Nat → Nat
  | 0, _ => 0
  | fuel + 1, x => if x % 2 = 1 then 0 else 1 + countr_zero_aux fuel (x / 2)

/-- C++20 `std::countr_zero` on a `std::uint32_t` (32 for the value zero). -/
def countr_zero (x : Nat) : Nat := countr_zero_aux 32 x

/-- libnx `Result`: a 32-bit code, zero meaning success. -/
abbrev Result := Nat

/-- libnx `R_FAILED(rc)`. -/
def R_FAILED (rc : Result) : Bool := rc != 0

/-- libnx `HidNpadButton_A`, `BIT(0)`. -/
def HidNpadButton_A : Nat := BIT 0

/-- libnx `HidNpadButton_Y`, `BIT(3)`. -/
def HidNpadButton_Y : Nat := BIT 3

/-! ## Data model -/

/-- Output range `ColorRange { lo, hi }`. -/
structure ColorRange where
  lo : ℚ
  hi : ℚ
  deriving DecidableEq

/-- The per-period settings of a profile. -/
structure ColorSettings where
  temperature : Int
  saturation : ℚ
  hue : ℚ
  contrast : ℚ
  gamma : ℚ
  luminance : ℚ
  range : ColorRange
  deriving DecidableEq

/-- The profile being edited (`config.profile`). Times are kept abstract. -/
structure Profile where
  dawn_begin : Nat
  dusk_begin : Nat
  day_settings : ColorSettings
  night_settings : ColorSettings
  components : Nat
  filter : Nat
  deriving DecidableEq

/-- Identifier of a profile; `Invalid` is `FizeauProfileId_Invalid`. -/
inductive FizeauProfileId where
  | Profile (n : Nat)
  | Invalid
  deriving DecidableEq

/-- The members of `Config` that the overlay reads or writes. -/
structure Config where
  active : Bool
  cur_profile_id : FizeauProfileId
  profile : Profile
  deriving DecidableEq

/-- The constants of `common.hpp` used by the overlay. -/
structure Limits where
  MIN_TEMP : Int
  MAX_TEMP : Int
  D65_TEMP : Int
  DEFAULT_TEMP : Int
  MIN_SAT : ℚ
  MAX_SAT : ℚ
  DEFAULT_SAT : ℚ
  MIN_HUE : ℚ
  MAX_HUE : ℚ
  DEFAULT_HUE : ℚ
  MIN_CONTRAST : ℚ
  MAX_CONTRAST : ℚ
  DEFAULT_CONTRAST : ℚ
  MIN_GAMMA : ℚ
  MAX_GAMMA : ℚ
  DEFAULT_GAMMA : ℚ
  MIN_LUMA : ℚ
  MAX_LUMA : ℚ
  DEFAULT_LUMA : ℚ
  MIN_RANGE : ℚ
  MAX_RANGE : ℚ
  DEFAULT_RANGE : ColorRange
  DEFAULT_LIMITED_RANGE : ColorRange

/-- Modelled from the spec: `Component_None` of `common.hpp`, mask `000` (index 0 of
the component table). -/
def Component_None : Nat := 0

/-- Modelled from the spec: `Component_All` of `common.hpp`, mask `111` (index 7 of
the component table). -/
def Component_All : Nat := 7

/-- A call made by the overlay to one of its collaborators. -/
inductive Effect where
  | apply (cfg : Config)
  | write (cfg : Config)
  | setIsActive (active : Bool)
  | changeToErrorGui (rc : Result)
  | log (rc : Result)
  | fizeauExit
  deriving DecidableEq

/-- The members of `FizeauOverlayGui`. A widget is represented by what the overlay last
handed to it: the `setProgress` argument of a track bar, the label of a list item
(`true` for "Active", resp. "Full"), the value printed in a header.
`enable_extra_hot_temps` is the local of `createUI` captured by the listeners. -/
structure FizeauOverlayGui where
  rc : Result
  is_day : Bool
  config : Config
  enable_extra_hot_temps : Bool
  active_button : Bool
  range_button : Bool
  temp_slider : Int
  sat_slider : Int
  hue_slider : Int
  components_bar : Int
  filter_bar : Int
  contrast_slider : Int
  gamma_slider : Int
  luma_slider : Int
  temp_header : Int
  sat_header : ℚ
  hue_header : ℚ
  contrast_header : ℚ
  gamma_header : ℚ
  luma_header : ℚ
  apply_counter : Int
  pending_apply : Bool
  deriving DecidableEq

/-! ## Parameter codec -/

/-- The slider position of a bounded value, `(value - min) * 100 / (max - min)`, in
unbounded integers with the truncating division of C++. -/
def encode (value min max : Int) : Int := Int.tdiv ((value - min) * 100) (max - min)

/-- The bounded value of a slider position, `val * (max - min) / 100 + min`, in
unbounded integers with the truncating division of C++. -/
def decode (val min max : Int) : Int := Int.tdiv (val * (max - min)) 100 + min

/-- The upper bound of the temperature slider,
`enable_extra_hot_temps ? MAX_TEMP : D65_TEMP`. -/
def temp_bound (L : Limits) (hot : Bool) : Int := if hot then L.MAX_TEMP else L.D65_TEMP

/-- Argument of `temp_slider->setProgress` for the temperature `t`:
`(t - MIN_TEMP) * 100 / (bound - MIN_TEMP)` in 32-bit unsigned arithmetic, converted
to `u8`. (A zero divisor is undefined in C++; it gives 0 here.) -/
def temp_progress (L : Limits) (hot : Bool) (t : Int) : Int :=
  u8 (u32 (u32 (t - L.MIN_TEMP) * 100) / u32 (temp_bound L hot - L.MIN_TEMP))

/-- Temperature stored by the value-changed listener of `temp_slider`:
`val * (bound - MIN_TEMP) / 100 + MIN_TEMP` in 32-bit unsigned arithmetic. -/
def temp_value (L : Limits) (hot : Bool) (val : Fin 256) : Int :=
  u32 (u32 ((val.val : Int) * u32 (temp_bound L hot - L.MIN_TEMP)) / 100 + L.MIN_TEMP)

/-- Argument of `setProgress` for a floating-point field:
`(x - MIN) * 100 / (MAX - MIN)` converted to `u8`. -/
def float_progress (x min max : ℚ) : Int := f2u8 ((x - min) * 100 / (max - min))

/-- Value stored by the value-changed listener of a floating-point field:
`val * (MAX - MIN) / 100 + MIN`. -/
def float_value (val : Fin 256) (min max : ℚ) : ℚ := (val.val : ℚ) * (max - min) / 100 + min

/-- The helper `is_full` of the anonymous namespace. -/
def is_full (L : Limits) (range : ColorRange) : Bool :=
  range.lo == L.MIN_RANGE && range.hi == L.MAX_RANGE

/-- Filter mask stored by the value-changed listener of `filter_bar`:
`val ? BIT(val - 1) : val`. -/
def filter_mask (val : Fin 256) : Nat := if val.val ≠ 0 then BIT (val.val - 1) else val.val

/-- Argument of `filter_bar->setProgress` in `createUI`:
`(filter == Component_None) ? 0 : countr_zero(filter) + 1`. -/
def filter_progress (filter : Nat) : Int :=
  u8 (if filter = Component_None then 0 else (countr_zero filter : Int) + 1)

/-! ## Period-aware access -/

/-- The settings selected by `is_day ? day_settings : night_settings`. -/
def FizeauOverlayGui.settings (s : FizeauOverlayGui) : ColorSettings :=
  if s.is_day then s.config.profile.day_settings else s.config.profile.night_settings

/-- Assignment through `(is_day ? day_settings.x : night_settings.x) = v`: `f` rewrites
the member `x` of the selected settings. -/
def FizeauOverlayGui.assign (s : FizeauOverlayGui) (f : ColorSettings → ColorSettings) :
    FizeauOverlayGui :=
  if s.is_day then
    { s with config := { s.config with profile :=
        { s.config.profile with day_settings := f s.config.profile.day_settings } } }
  else
    { s with config := { s.config with profile :=
        { s.config.profile with night_settings := f s.config.profile.night_settings } } }

/-- Assignment to `config.profile.components`. -/
def FizeauOverlayGui.set_components (s : FizeauOverlayGui) (c : Nat) : FizeauOverlayGui :=
  { s with config := { s.config with profile := { s.config.profile with components := c } } }

/-- Assignment to `config.profile.filter`. -/
def FizeauOverlayGui.set_filter (s : FizeauOverlayGui) (c : Nat) : FizeauOverlayGui :=
  { s with config := { s.config with profile := { s.config.profile with filter := c } } }

/-- What a click listener leaves behind: its return value, the members and the calls
it made. -/
structure Outcome where
  ret : Bool
  gui : FizeauOverlayGui
  effects : List Effect

/-- The tail shared by every immediate handler:
`rc = config.apply(); pending_apply = false; apply_counter = 0; return true;`,
where `apply_rc` is the result returned by `config.apply()`. -/
def apply_now (apply_rc : Result) (s : FizeauOverlayGui) : Outcome :=
  { ret := true
    gui := { s with rc := apply_rc, pending_apply := false, apply_counter := 0 }
    effects := [Effect.apply s.config] }

/-- A click listener whose key test failed: `return false;`. -/
def not_handled (s : FizeauOverlayGui) : Outcome :=
  { ret := false, gui := s, effects := [] }

/-- The key test `keys & button` of a click listener (`keys` is a `std::uint64_t`). -/
def pressed (keys button : Nat) : Bool := (keys &&& button) != 0

/-! ## Listeners registered by `createUI` -/

/-- Click listener of `active_button`; `rc` is what `fizeauSetIsActive` returns. -/
def active_button_click (keys : Nat) (rc : Result) (s : FizeauOverlayGui) : Outcome :=
  if pressed keys HidNpadButton_A then
    let s1 := { s with config := { s.config with active := !s.config.active } }
    { ret := true
      gui := { s1 with rc := rc, active_button := s1.config.active }
      effects := [Effect.setIsActive s1.config.active] }
  else not_handled s

/-- Click listener of `reset_button` ("Reset settings"). -/
def reset_button_click (L : Limits) (keys : Nat) (apply_rc : Result) (s : FizeauOverlayGui) :
    Outcome :=
  if pressed keys HidNpadButton_A then
    let s := s.assign (fun c => { c with temperature := L.DEFAULT_TEMP })
    let s := { s with temp_slider := temp_progress L s.enable_extra_hot_temps L.DEFAULT_TEMP }
    let s := s.assign (fun c => { c with saturation := L.DEFAULT_SAT })
    let s := { s with sat_slider := float_progress L.DEFAULT_SAT L.MIN_SAT L.MAX_SAT }
    let s := s.assign (fun c => { c with hue := L.DEFAULT_HUE })
    let s := { s with hue_slider := float_progress L.DEFAULT_HUE L.MIN_HUE L.MAX_HUE }
    let s := s.set_components Component_All
    let s := { s with components_bar := u8 Component_All }
    let s := s.set_filter Component_None
    let s := { s with filter_bar := u8 Component_None }
    let s := s.assign (fun c => { c with contrast := L.DEFAULT_CONTRAST })
    let progress := float_progress L.DEFAULT_CONTRAST L.MIN_CONTRAST L.MAX_CONTRAST
    let s := { s with contrast_slider := progress }
    let s := s.assign (fun c => { c with gamma := L.DEFAULT_GAMMA })
    let s := { s with gamma_slider := float_progress L.DEFAULT_GAMMA L.MIN_GAMMA L.MAX_GAMMA }
    let s := s.assign (fun c => { c with luminance := L.DEFAULT_LUMA })
    let s := { s with luma_slider := float_progress L.DEFAULT_LUMA L.MIN_LUMA L.MAX_LUMA }
    let s := s.assign (fun c => { c with range := L.DEFAULT_RANGE })
    let s := { s with range_button := is_full L s.settings.range }
    apply_now apply_rc s
  else not_handled s

/-- Click listener of `temp_slider`. (The lambda captures `enable_extra_hot_temps` by
reference; it is read as the value `createUI` computed.) -/
def temp_slider_click (L : Limits) (keys : Nat) (apply_rc : Result) (s : FizeauOverlayGui) :
    Outcome :=
  if pressed keys HidNpadButton_Y then
    let s := { s with temp_slider := temp_progress L s.enable_extra_hot_temps L.DEFAULT_TEMP }
    let s := s.assign (fun c => { c with temperature := L.DEFAULT_TEMP })
    apply_now apply_rc s
  else not_handled s

/-- Value-changed listener of `temp_slider`. -/
def temp_slider_valueChanged (L : Limits) (val : Fin 256) (s : FizeauOverlayGui) :
    FizeauOverlayGui :=
  let s := s.assign (fun c => { c with temperature := temp_value L s.enable_extra_hot_temps val })
  { s with pending_apply := true }

/-- Click listener of `sat_slider`. -/
def sat_slider_click (L : Limits) (keys : Nat) (apply_rc : Result) (s : FizeauOverlayGui) :
    Outcome :=
  if pressed keys HidNpadButton_Y then
    let s := { s with sat_slider := float_progress L.DEFAULT_SAT L.MIN_SAT L.MAX_SAT }
    let s := s.assign (fun c => { c with saturation := L.DEFAULT_SAT })
    apply_now apply_rc s
  else not_handled s

/-- Value-changed listener of `sat_slider`. -/
def sat_slider_valueChanged (L : Limits) (val : Fin 256) (s : FizeauOverlayGui) :
    FizeauOverlayGui :=
  let s := s.assign (fun c => { c with saturation := float_value val L.MIN_SAT L.MAX_SAT })
  { s with pending_apply := true }

/-- Click listener of `hue_slider`. -/
def hue_slider_click (L : Limits) (keys : Nat) (apply_rc : Result) (s : FizeauOverlayGui) :
    Outcome :=
  if pressed keys HidNpadButton_Y then
    let s := { s with hue_slider := float_progress L.DEFAULT_HUE L.MIN_HUE L.MAX_HUE }
    let s := s.assign (fun c => { c with hue := L.DEFAULT_HUE })
    apply_now apply_rc s
  else not_handled s

/-- Value-changed listener of `hue_slider`. -/
def hue_slider_valueChanged (L : Limits) (val : Fin 256) (s : FizeauOverlayGui) :
    FizeauOverlayGui :=
  let s := s.assign (fun c => { c with hue := float_value val L.MIN_HUE L.MAX_HUE })
  { s with pending_apply := true }

/-- Click listener of `components_bar`. -/
def components_bar_click (keys : Nat) (apply_rc : Result) (s : FizeauOverlayGui) : Outcome :=
  if pressed keys HidNpadButton_Y then
    let s := { s with components_bar := u8 Component_All }
    let s := s.set_components Component_All
    apply_now apply_rc s
  else not_handled s

/-- Value-changed listener of `components_bar`: `static_cast<Component>(val)`. -/
def components_bar_valueChanged (val : Fin 256) (s : FizeauOverlayGui) : FizeauOverlayGui :=
  let s := s.set_components val.val
  { s with pending_apply := true }

/-- Click listener of `filter_bar`. -/
def filter_bar_click (keys : Nat) (apply_rc : Result) (s : FizeauOverlayGui) : Outcome :=
  if pressed keys HidNpadButton_Y then
    let s := { s with filter_bar := u8 Component_None }
    let s := s.set_filter Component_None
    apply_now apply_rc s
  else not_handled s

/-- Value-changed listener of `filter_bar`. -/
def filter_bar_valueChanged (val : Fin 256) (s : FizeauOverlayGui) : FizeauOverlayGui :=
  let s := s.set_filter (filter_mask val)
  { s with pending_apply := true }

/-- Click listener of `contrast_slider`. -/
def contrast_slider_click (L : Limits) (keys : Nat) (apply_rc : Result)
    (s : FizeauOverlayGui) : Outcome :=
  if pressed keys HidNpadButton_Y then
    let progress := float_progress L.DEFAULT_CONTRAST L.MIN_CONTRAST L.MAX_CONTRAST
    let s := { s with contrast_slider := progress }
    let s := s.assign (fun c => { c with contrast := L.DEFAULT_CONTRAST })
    apply_now apply_rc s
  else not_handled s

/-- Value-changed listener of `contrast_slider`. -/
def contrast_slider_valueChanged (L : Limits) (val : Fin 256) (s : FizeauOverlayGui) :
    FizeauOverlayGui :=
  let s := s.assign (fun c =>
    { c with contrast := float_value val L.MIN_CONTRAST L.MAX_CONTRAST })
  { s with pending_apply := true }

/-- Click listener of `gamma_slider`. -/
def gamma_slider_click (L : Limits) (keys : Nat) (apply_rc : Result) (s : FizeauOverlayGui) :
    Outcome :=
  if pressed keys HidNpadButton_Y then
    let s := { s with gamma_slider := float_progress L.DEFAULT_GAMMA L.MIN_GAMMA L.MAX_GAMMA }
    let s := s.assign (fun c => { c with gamma := L.DEFAULT_GAMMA })
    apply_now apply_rc s
  else not_handled s

/-- Value-changed listener of `gamma_slider`. -/
def gamma_slider_valueChanged (L : Limits) (val : Fin 256) (s : FizeauOverlayGui) :
    FizeauOverlayGui :=
  let s := s.assign (fun c => { c with gamma := float_value val L.MIN_GAMMA L.MAX_GAMMA })
  { s with pending_apply := true }

/-- Click listener of `luma_slider`. -/
def luma_slider_click (L : Limits) (keys : Nat) (apply_rc : Result) (s : FizeauOverlayGui) :
    Outcome :=
  if pressed keys HidNpadButton_Y then
    let s := { s with luma_slider := float_progress L.DEFAULT_LUMA L.MIN_LUMA L.MAX_LUMA }
    let s := s.assign (fun c => { c with luminance := L.DEFAULT_LUMA })
    apply_now apply_rc s
  else not_handled s

/-- Value-changed listener of `luma_slider`. -/
def luma_slider_valueChanged (L : Limits) (val : Fin 256) (s : FizeauOverlayGui) :
    FizeauOverlayGui :=
  let s := s.assign (fun c => { c with luminance := float_value val L.MIN_LUMA L.MAX_LUMA })
  { s with pending_apply := true }

/-- Click listener of `range_button` ("Color range"). -/
def range_button_click (L : Limits) (keys : Nat) (apply_rc : Result) (s : FizeauOverlayGui) :
    Outcome :=
  if pressed keys HidNpadButton_A then
    let s :=
      if is_full L s.settings.range then
        s.assign (fun c => { c with range := L.DEFAULT_LIMITED_RANGE })
      else
        s.assign (fun c => { c with range := L.DEFAULT_RANGE })
    let s := { s with range_button := is_full L s.settings.range }
    apply_now apply_rc s
  else not_handled s

/-! ## Construction, `createUI`, `update` and destruction -/

/-- The constructor. Its body only talks to the collaborators (service, configuration
store, clock); `members` is what it leaves in the other members. The member
initialisers are `apply_counter(0), pending_apply(false)`. -/
def FizeauOverlayGui.ctor (members : FizeauOverlayGui) : FizeauOverlayGui :=
  { members with apply_counter := 0, pending_apply := false }

/-- The body of `createUI`: the local `enable_extra_hot_temps` is computed from the stored
temperature of the current period, every widget receives its initial value. -/
def createUI (L : Limits) (s : FizeauOverlayGui) : FizeauOverlayGui :=
  let hot := decide (s.settings.temperature > L.D65_TEMP)
  { s with
    enable_extra_hot_temps := hot
    active_button := s.config.active
    temp_slider := temp_progress L hot s.settings.temperature
    sat_slider := float_progress s.settings.saturation L.MIN_SAT L.MAX_SAT
    hue_slider := float_progress s.settings.hue L.MIN_HUE L.MAX_HUE
    components_bar := u8 s.config.profile.components
    filter_bar := filter_progress s.config.profile.filter
    contrast_slider := float_progress s.settings.contrast L.MIN_CONTRAST L.MAX_CONTRAST
    gamma_slider := float_progress s.settings.gamma L.MIN_GAMMA L.MAX_GAMMA
    luma_slider := float_progress s.settings.luminance L.MIN_LUMA L.MAX_LUMA
    range_button := is_full L s.settings.range }

/-- The throttling block of `update()`:
`if (pending_apply) { apply_counter++; if (apply_counter >= 3) { apply; reset } }`.
(`apply_counter` is an `int`; the increment is taken in the integers, it cannot
overflow on a counter that is reset at 3.) -/
def advance (apply_rc : Result) (s : FizeauOverlayGui) : FizeauOverlayGui × List Effect :=
  if s.pending_apply then
    let s := { s with apply_counter := s.apply_counter + 1 }
    if s.apply_counter ≥ 3 then
      ({ s with pending_apply := false, apply_counter := 0 },
        Effect.apply s.config :: (if R_FAILED apply_rc then [Effect.log apply_rc] else []))
    else (s, [])
  else (s, [])

/-- One call of `update()`. `clock` is `Clock::is_in_interval` at the time of the call
and `apply_rc` the result `config.apply()` returns if it is called. -/
def update (clock : Nat → Nat → Bool) (apply_rc : Result) (s : FizeauOverlayGui) :
    FizeauOverlayGui × List Effect :=
  let fatal :=
    if R_FAILED s.rc && s.config.cur_profile_id == FizeauProfileId.Invalid then
      [Effect.changeToErrorGui s.rc]
    else []
  let s := { s with is_day := clock s.config.profile.dawn_begin s.config.profile.dusk_begin }
  let r := advance apply_rc s
  let s := r.1
  let s := { s with
    temp_header := s.settings.temperature
    sat_header := s.settings.saturation
    hue_header := s.settings.hue
    contrast_header := s.settings.contrast
    gamma_header := s.settings.gamma
    luma_header := s.settings.luminance }
  (s, fatal ++ r.2)

/-- The destructor: the calls it makes, in order. -/
def FizeauOverlayGui.dtor (s : FizeauOverlayGui) : List Effect :=
  (if s.pending_apply then [Effect.apply s.config] else []) ++
    [Effect.write s.config, Effect.fizeauExit]

/-! ## Sessions -/

/-- The eight track bars. -/
inductive Slider where
  | temp | sat | hue | components | filter | contrast | gamma | luma
  deriving DecidableEq

/-- The value-changed listener of a track bar. -/
def valueChanged (L : Limits) (w : Slider) (val : Fin 256) (s : FizeauOverlayGui) :
    FizeauOverlayGui :=
  match w with
  | .temp => temp_slider_valueChanged L val s
  | .sat => sat_slider_valueChanged L val s
  | .hue => hue_slider_valueChanged L val s
  | .components => components_bar_valueChanged val s
  | .filter => filter_bar_valueChanged val s
  | .contrast => contrast_slider_valueChanged L val s
  | .gamma => gamma_slider_valueChanged L val s
  | .luma => luma_slider_valueChanged L val s

/-- The click listener of a track bar. -/
def slider_click (L : Limits) (w : Slider) (keys : Nat) (apply_rc : Result)
    (s : FizeauOverlayGui) : Outcome :=
  match w with
  | .temp => temp_slider_click L keys apply_rc s
  | .sat => sat_slider_click L keys apply_rc s
  | .hue => hue_slider_click L keys apply_rc s
  | .components => components_bar_click keys apply_rc s
  | .filter => filter_bar_click keys apply_rc s
  | .contrast => contrast_slider_click L keys apply_rc s
  | .gamma => gamma_slider_click L keys apply_rc s
  | .luma => luma_slider_click L keys apply_rc s

/-- What the toolkit can call on the overlay after `createUI`: a listener with its
argument, or `update()`; each carries the answer of the collaborator it may call. -/
inductive Action where
  | edit (w : Slider) (val : Fin 256)
  | click (w : Slider) (keys : Nat) (apply_rc : Result)
  | reset (keys : Nat) (apply_rc : Result)
  | range (keys : Nat) (apply_rc : Result)
  | active (keys : Nat) (rc : Result)
  | tick (clock : Nat → Nat → Bool) (apply_rc : Result)

/-- Is the action a value-changed event? -/
def Action.isEdit : Action → Bool
  | .edit _ _ => true
  | _ => false

/-- Is the action a call of `update()`? -/
def Action.isTick : Action → Bool
  | .tick _ _ => true
  | _ => false

/-- The effect of one action on the members, with the calls it made. -/
def step (L : Limits) (s : FizeauOverlayGui) : Action → FizeauOverlayGui × List Effect
  | .edit w val => (valueChanged L w val s, [])
  | .click w keys apply_rc =>
      let r := slider_click L w keys apply_rc s
      (r.gui, r.effects)
  | .reset keys apply_rc =>
      let r := reset_button_click L keys apply_rc s
      (r.gui, r.effects)
  | .range keys apply_rc =>
      let r := range_button_click L keys apply_rc s
      (r.gui, r.effects)
  | .active keys rc =>
      let r := active_button_click keys rc s
      (r.gui, r.effects)
  | .tick clock apply_rc => update clock apply_rc s

/-- A sequence of actions: final members and all calls made, in order. -/
def run (L : Limits) (s : FizeauOverlayGui) : List Action → FizeauOverlayGui × List Effect
  | [] => (s, [])
  | a :: rest =>
      let r := step L s a
      let r2 := run L r.1 rest
      (r2.1, r.2 ++ r2.2)

/-- The configurations handed to `config.apply()`, in order. -/
def applies : List Effect → List Config
  | [] => []
  | Effect.apply cfg :: rest => cfg :: applies rest
  | _ :: rest => applies rest

/-- For each call of `update()` in a session, whether it invoked `config.apply()`. -/
def tick_flags (L : Limits) (s : FizeauOverlayGui) : List Action → List Bool
  | [] => []
  | Action.tick clock apply_rc :: rest =>
      (!(applies (update clock apply_rc s).2).isEmpty) ::
        tick_flags L (update clock apply_rc s).1 rest
  | a :: rest => tick_flags L (step L s a).1 rest

/-- Number of calls of `update()` in a sequence of actions. -/
def ticks (l : List Action) : Nat := (l.filter Action.isTick).length

/-- Trues at least three positions apart, the first one not before position `k`:
the shape of the per-tick apply flags of a session. -/
def Spaced : List Bool → Nat → Prop
  | [], _ => True
  | false :: l, k => Spaced l (k - 1)
  | true :: l, k => k = 0 ∧ Spaced l 2

/-! ## Sample data -/

/-- The limits of the scenario of the specification (`MIN_TEMP = 1000`, `D65_TEMP = 6500`,
`MAX_TEMP = 20000`); the limits the scenario leaves open are given sample values. -/
def scenario : Limits :=
  { MIN_TEMP := 1000, MAX_TEMP := 20000, D65_TEMP := 6500, DEFAULT_TEMP := 6500
    MIN_SAT := 0, MAX_SAT := 2, DEFAULT_SAT := 1
    MIN_HUE := -1, MAX_HUE := 1, DEFAULT_HUE := 0
    MIN_CONTRAST := 0, MAX_CONTRAST := 2, DEFAULT_CONTRAST := 1
    MIN_GAMMA := 0, MAX_GAMMA := 5, DEFAULT_GAMMA := 2
    MIN_LUMA := -1, MAX_LUMA := 1, DEFAULT_LUMA := 0
    MIN_RANGE := 0, MAX_RANGE := 1
    DEFAULT_RANGE := { lo := 0, hi := 1 }
    DEFAULT_LIMITED_RANGE := { lo := 16 / 255, hi := 235 / 255 } }

/-- Sample settings with the temperature of the scenario, 8000 K. -/
def sample_settings : ColorSettings :=
  { temperature := 8000, saturation := 1, hue := 0, contrast := 1, gamma := 2,
    luminance := 0, range := { lo := 0, hi := 1 } }

/-- A sample configuration. -/
def sample_config : Config :=
  { active := true
    cur_profile_id := FizeauProfileId.Profile 0
    profile := { dawn_begin := 7, dusk_begin := 21, day_settings := sample_settings,
                 night_settings := sample_settings, components := 7, filter := 0 } }

/-- A clock for which it is always day. -/
def always_day : Nat → Nat → Bool := fun _ _ => true

/-- A clock for which it is always night. -/
def always_night : Nat → Nat → Bool := fun _ _ => false

/-- Sample members as a constructor body could leave them (the engine members hold
arbitrary values before the initialisers are applied). -/
def sample_members : FizeauOverlayGui :=
  { rc := 0, is_day := true, config := sample_config, enable_extra_hot_temps := false,
    active_button := false, range_button := false, temp_slider := 0, sat_slider := 0,
    hue_slider := 0, components_bar := 0, filter_bar := 0, contrast_slider := 0,
    gamma_slider := 0, luma_slider := 0, temp_header := 0, sat_header := 0,
    hue_header := 0, contrast_header := 0, gamma_header := 0, luma_header := 0,
    apply_counter := 7, pending_apply := true }

/-- A sample session right after construction and `createUI`: idle, day period. -/
def sample_gui : FizeauOverlayGui :=
  createUI scenario (FizeauOverlayGui.ctor sample_members)

/-- A sample session: two bursts of one edit, each followed by three ticks. -/
def sample_session : List Action :=
  [Action.edit Slider.temp 10, Action.tick always_day 0, Action.tick always_day 0,
    Action.tick always_day 0, Action.edit Slider.sat 40, Action.tick always_day 0,
    Action.tick always_day 0, Action.tick always_day 0]

/-- The sample session with the engine forced to `Pending(c)`. -/
def pending_gui (c : Int) : FizeauOverlayGui :=
  { sample_gui with pending_apply := true, apply_counter := c }

/-- A sample session whose initialisation failed without a valid profile; idle, and
the last period computed was night. -/
def fatal_gui : FizeauOverlayGui :=
  { sample_gui with
    rc := 1
    is_day := false
    config := { sample_config with cur_profile_id := FizeauProfileId.Invalid } }

/-- The same failed session with the engine in `Pending(2)`. -/
def fatal_pending_gui : FizeauOverlayGui :=
  { fatal_gui with pending_apply := true, apply_counter := 2 }

/-- An immediate commit: `config.apply()` was called exactly once, with the
configuration the handler leaves behind, and the engine is idle with a zero counter. -/
def Outcome.bypassed (r : Outcome) : Prop :=
  applies r.effects = [r.gui.config] ∧ r.gui.pending_apply = false ∧ r.gui.apply_counter = 0

/-- The invariant of the engine: the counter stays in `[0, 3)` and is zero whenever
nothing is pending. -/
def FizeauOverlayGui.engine_ok (s : FizeauOverlayGui) : Prop :=
  0 ≤ s.apply_counter ∧ s.apply_counter < 3 ∧ (s.pending_apply = false → s.apply_counter = 0)

/-- Number of ticks of a schedule that come after its first edit (the schedule being
made of edits and ticks only). -/
def ticks_after_first_edit (l : List Action) : Nat := ticks (l.dropWhile Action.isTick)

/-- The six numeric fields of the per-period settings. -/
inductive Field where
  | temperature | saturation | hue | contrast | gamma | luminance
  deriving DecidableEq

/-- The track bar that edits a numeric field. -/
def Field.slider : Field → Slider
  | .temperature => Slider.temp
  | .saturation => Slider.sat
  | .hue => Slider.hue
  | .contrast => Slider.contrast
  | .gamma => Slider.gamma
  | .luminance => Slider.luma

/-- The value of a numeric field of some settings (the temperature as a rational). -/
def ColorSettings.get (c : ColorSettings) : Field → ℚ
  | .temperature => c.temperature
  | .saturation => c.saturation
  | .hue => c.hue
  | .contrast => c.contrast
  | .gamma => c.gamma
  | .luminance => c.luminance

/-- The default constant of a numeric field, `DEFAULT_x`. -/
def Limits.default_of (L : Limits) : Field → ℚ
  | .temperature => L.DEFAULT_TEMP
  | .saturation => L.DEFAULT_SAT
  | .hue => L.DEFAULT_HUE
  | .contrast => L.DEFAULT_CONTRAST
  | .gamma => L.DEFAULT_GAMMA
  | .luminance => L.DEFAULT_LUMA

/-- The value the value-changed listener of a numeric field computes from the slider
value `val` (`hot` is `enable_extra_hot_temps`). -/
def Limits.decoded (L : Limits) (hot : Bool) (val : Fin 256) : Field → ℚ
  | .temperature => temp_value L hot val
  | .saturation => float_value val L.MIN_SAT L.MAX_SAT
  | .hue => float_value val L.MIN_HUE L.MAX_HUE
  | .contrast => float_value val L.MIN_CONTRAST L.MAX_CONTRAST
  | .gamma => float_value val L.MIN_GAMMA L.MAX_GAMMA
  | .luminance => float_value val L.MIN_LUMA L.MAX_LUMA

/-- Two settings agree on the range and on every numeric field other than `f`. -/
def ColorSettings.same_except (f : Field) (a b : ColorSettings) : Prop :=
  a.range = b.range ∧ ∀ f' : Field, f' ≠ f → a.get f' = b.get f'

/-- Going from `s` to `g`, the configuration changed at most in the field `f` of the
settings of the period current in `s`: the other period's settings, the other members of
the current settings, components, filter and the rest of the configuration are the
same, and so is `is_day`. -/
def writes_only (f : Field) (s g : FizeauOverlayGui) : Prop :=
  g.is_day = s.is_day ∧
  g.config.active = s.config.active ∧
  g.config.cur_profile_id = s.config.cur_profile_id ∧
  g.config.profile.dawn_begin = s.config.profile.dawn_begin ∧
  g.config.profile.dusk_begin = s.config.profile.dusk_begin ∧
  g.config.profile.components = s.config.profile.components ∧
  g.config.profile.filter = s.config.profile.filter ∧
  (s.is_day = true →
    g.config.profile.night_settings = s.config.profile.night_settings ∧
    ColorSettings.same_except f g.config.profile.day_settings s.config.profile.day_settings) ∧
  (s.is_day = false →
    g.config.profile.day_settings = s.config.profile.day_settings ∧
    ColorSettings.same_except f g.config.profile.night_settings
      s.config.profile.night_settings)

/-- The members after `createUI` on the constructed members `init` followed by the
actions `l`. -/
def session (L : Limits) (init : FizeauOverlayGui) (l : List Action) : FizeauOverlayGui :=
  (run L (createUI L init) l).1

/-! ## Theorems -/

/-! ### Period-aware assignment leaves the engine alone -/

@[simp]
theorem assign_pending_apply (s : FizeauOverlayGui) (f : ColorSettings → ColorSettings) :
    (s.assign f).pending_apply = s.pending_apply := by
  unfold FizeauOverlayGui.assign; split <;> rfl

@[simp]
theorem assign_apply_counter (s : FizeauOverlayGui) (f : ColorSettings → ColorSettings) :
    (s.assign f).apply_counter = s.apply_counter := by
  unfold FizeauOverlayGui.assign; split <;> rfl

@[simp]
theorem assign_is_day (s : FizeauOverlayGui) (f : ColorSettings → ColorSettings) :
    (s.assign f).is_day = s.is_day := by
  unfold FizeauOverlayGui.assign; split <;> rfl

@[simp]
theorem assign_enable_extra_hot_temps (s : FizeauOverlayGui)
    (f : ColorSettings → ColorSettings) :
    (s.assign f).enable_extra_hot_temps = s.enable_extra_hot_temps := by
  unfold FizeauOverlayGui.assign; split <;> rfl

@[simp]
theorem assign_settings (s : FizeauOverlayGui) (f : ColorSettings → ColorSettings) :
    (s.assign f).settings = f s.settings := by
  unfold FizeauOverlayGui.assign FizeauOverlayGui.settings
  cases h : s.is_day <;> simp [h]

theorem valueChanged_pending_apply (L : Limits) (w : Slider) (val : Fin 256)
    (s : FizeauOverlayGui) : (valueChanged L w val s).pending_apply = true := by
  cases w <;> rfl

theorem valueChanged_apply_counter (L : Limits) (w : Slider) (val : Fin 256)
    (s : FizeauOverlayGui) : (valueChanged L w val s).apply_counter = s.apply_counter := by
  cases w <;>
    simp [valueChanged, temp_slider_valueChanged, sat_slider_valueChanged,
      hue_slider_valueChanged, components_bar_valueChanged, filter_bar_valueChanged,
      contrast_slider_valueChanged, gamma_slider_valueChanged, luma_slider_valueChanged,
      FizeauOverlayGui.set_components, FizeauOverlayGui.set_filter]

theorem apply_now_bypassed (apply_rc : Result) (s : FizeauOverlayGui) :
    (apply_now apply_rc s).bypassed := by
  simp [Outcome.bypassed, apply_now, applies]

theorem slider_click_bypassed (L : Limits) (w : Slider) (keys : Nat) (apply_rc : Result)
    (s : FizeauOverlayGui) (hy : pressed keys HidNpadButton_Y = true) :
    (slider_click L w keys apply_rc s).bypassed := by
  cases w <;>
    simp only [slider_click, temp_slider_click, sat_slider_click, hue_slider_click,
      components_bar_click, filter_bar_click, contrast_slider_click, gamma_slider_click,
      luma_slider_click, hy, if_true] <;>
    exact apply_now_bypassed _ _

theorem reset_button_click_bypassed (L : Limits) (keys : Nat) (apply_rc : Result)
    (s : FizeauOverlayGui) (ha : pressed keys HidNpadButton_A = true) :
    (reset_button_click L keys apply_rc s).bypassed := by
  simp only [reset_button_click, ha, if_true]
  exact apply_now_bypassed _ _

theorem range_button_click_bypassed (L : Limits) (keys : Nat) (apply_rc : Result)
    (s : FizeauOverlayGui) (ha : pressed keys HidNpadButton_A = true) :
    (range_button_click L keys apply_rc s).bypassed := by
  simp only [range_button_click, ha, if_true]
  exact apply_now_bypassed _ _

/-! ### One call of `update()` -/

theorem applies_append (l₁ l₂ : List Effect) : applies (l₁ ++ l₂) = applies l₁ ++ applies l₂ := by
  induction l₁ with
  | nil => rfl
  | cons e l ih => cases e <;> simp [applies, ih]

theorem advance_is_day (apply_rc : Result) (s : FizeauOverlayGui) (b : Bool) :
    advance apply_rc { s with is_day := b } =
      ({ (advance apply_rc s).1 with is_day := b }, (advance apply_rc s).2) := by
  unfold advance
  by_cases hp : s.pending_apply = true
  · by_cases hc : s.apply_counter + 1 ≥ 3 <;> simp [hp, hc]
  · simp [hp]

theorem advance_config (apply_rc : Result) (s : FizeauOverlayGui) :
    (advance apply_rc s).1.config = s.config := by
  unfold advance
  by_cases hp : s.pending_apply = true
  · by_cases hc : s.apply_counter + 1 ≥ 3 <;> simp [hp, hc]
  · simp [hp]

theorem advance_idle (apply_rc : Result) (s : FizeauOverlayGui)
    (hp : s.pending_apply = false) : advance apply_rc s = (s, []) := by
  simp [advance, hp]

theorem advance_wait (apply_rc : Result) (s : FizeauOverlayGui)
    (hp : s.pending_apply = true) (hc : s.apply_counter + 1 < 3) :
    advance apply_rc s = ({ s with apply_counter := s.apply_counter + 1 }, []) := by
  have hc' : ¬ (3 ≤ s.apply_counter + 1) := by omega
  simp [advance, hp, hc']

theorem advance_fire (apply_rc : Result) (s : FizeauOverlayGui)
    (hp : s.pending_apply = true) (hc : 3 ≤ s.apply_counter + 1) :
    advance apply_rc s =
      ({ s with pending_apply := false, apply_counter := 0 },
        Effect.apply s.config :: (if R_FAILED apply_rc then [Effect.log apply_rc] else [])) := by
  simp [advance, hp, hc]

theorem applies_log (apply_rc : Result) :
    applies (if R_FAILED apply_rc = true then [Effect.log apply_rc] else []) = [] := by
  split <;> rfl

theorem update_effects (clock : Nat → Nat → Bool) (apply_rc : Result) (s : FizeauOverlayGui) :
    (update clock apply_rc s).2 =
      (if (R_FAILED s.rc && s.config.cur_profile_id == FizeauProfileId.Invalid) = true then
        [Effect.changeToErrorGui s.rc] else []) ++ (advance apply_rc s).2 := by
  simp [update, advance_is_day]

theorem update_applies (clock : Nat → Nat → Bool) (apply_rc : Result) (s : FizeauOverlayGui) :
    applies (update clock apply_rc s).2 = applies (advance apply_rc s).2 := by
  rw [update_effects, applies_append]
  split <;> rfl

theorem update_pending_apply (clock : Nat → Nat → Bool) (apply_rc : Result)
    (s : FizeauOverlayGui) :
    (update clock apply_rc s).1.pending_apply = (advance apply_rc s).1.pending_apply := by
  simp [update, advance_is_day]

theorem update_apply_counter (clock : Nat → Nat → Bool) (apply_rc : Result)
    (s : FizeauOverlayGui) :
    (update clock apply_rc s).1.apply_counter = (advance apply_rc s).1.apply_counter := by
  simp [update, advance_is_day]

theorem update_config (clock : Nat → Nat → Bool) (apply_rc : Result) (s : FizeauOverlayGui) :
    (update clock apply_rc s).1.config = s.config := by
  simp [update, advance_is_day, advance_config]

theorem update_is_day (clock : Nat → Nat → Bool) (apply_rc : Result) (s : FizeauOverlayGui) :
    (update clock apply_rc s).1.is_day =
      clock s.config.profile.dawn_begin s.config.profile.dusk_begin := by
  simp [update, advance_is_day]

/-! ### Claims on single handlers -/

/-- C2 (amended): each of the eight value-changed listeners, run in any engine state,
sets `pending_apply` and leaves `apply_counter` as it was; it does not reset the
counter. From Idle with a zero counter the engine is in `Pending(0)`, from `Pending(c)`
it stays in `Pending(c)`. -/
theorem valueChanged_keeps_counter (L : Limits) (w : Slider) (val : Fin 256)
    (s : FizeauOverlayGui) :
    (valueChanged L w val s).pending_apply = true ∧
      (valueChanged L w val s).apply_counter = s.apply_counter :=
  ⟨valueChanged_pending_apply L w val s, valueChanged_apply_counter L w val s⟩

/-- C2 (counterexample): after one edit and one tick the sample session is in
`Pending(1)`; a second edit leaves the counter at 1, not at 0. -/
theorem valueChanged_no_reset :
    (run scenario sample_gui [.edit .temp 10, .tick always_day 0]).1.pending_apply = true ∧
    (run scenario sample_gui [.edit .temp 10, .tick always_day 0]).1.apply_counter = 1 ∧
    (valueChanged scenario .temp 20
      (run scenario sample_gui [.edit .temp 10, .tick always_day 0]).1).apply_counter = 1 ∧
    ¬ ((valueChanged scenario .temp 20
      (run scenario sample_gui [.edit .temp 10, .tick always_day 0]).1).apply_counter = 0) := by
  decide

/-- C3: one call of `update()`, for every state and every result of `config.apply()`:
in Idle no apply is invoked and the engine stays idle (counter untouched); in
`Pending(c)` with `c + 1 < 3` no apply is invoked and the engine is in `Pending(c + 1)`;
in `Pending(c)` with `c + 1 = 3` `config.apply()` is invoked exactly once, on the
current configuration, and the engine is idle with a zero counter. -/
theorem update_tick_transition (clock : Nat → Nat → Bool) (apply_rc : Result)
    (s : FizeauOverlayGui) :
    (s.pending_apply = false →
      applies (update clock apply_rc s).2 = [] ∧
      (update clock apply_rc s).1.pending_apply = false ∧
      (update clock apply_rc s).1.apply_counter = s.apply_counter) ∧
    (s.pending_apply = true → s.apply_counter + 1 < 3 →
      applies (update clock apply_rc s).2 = [] ∧
      (update clock apply_rc s).1.pending_apply = true ∧
      (update clock apply_rc s).1.apply_counter = s.apply_counter + 1) ∧
    (s.pending_apply = true → s.apply_counter + 1 = 3 →
      applies (update clock apply_rc s).2 = [s.config] ∧
      (update clock apply_rc s).1.pending_apply = false ∧
      (update clock apply_rc s).1.apply_counter = 0) := by
  refine ⟨fun hp => ?_, fun hp hc => ?_, fun hp hc => ?_⟩
  · rw [update_applies, update_pending_apply, update_apply_counter, advance_idle _ _ hp]
    exact ⟨rfl, hp, rfl⟩
  · rw [update_applies, update_pending_apply, update_apply_counter, advance_wait _ _ hp hc]
    exact ⟨rfl, hp, rfl⟩
  · rw [update_applies, update_pending_apply, update_apply_counter,
      advance_fire _ _ hp (by omega)]
    simp [applies, applies_log]

/-- C3 (witness): the three cases on the sample session, idle, `Pending(0)` and
`Pending(2)` with a failing apply. -/
theorem update_tick_transition_witness :
    (sample_gui.pending_apply = false ∧
      applies (update always_day 0 sample_gui).2 = []) ∧
    ((pending_gui 0).pending_apply = true ∧
      (update always_day 0 (pending_gui 0)).1.apply_counter = 1) ∧
    ((pending_gui 2).apply_counter + 1 = 3 ∧
      applies (update always_night 5 (pending_gui 2)).2 = [(pending_gui 2).config] ∧
      (update always_night 5 (pending_gui 2)).1.pending_apply = false) :=
  ⟨⟨by decide, ((update_tick_transition always_day 0 sample_gui).1 (by decide)).1⟩,
   ⟨by decide,
    ((update_tick_transition always_day 0 (pending_gui 0)).2.1 (by decide) (by decide)).2.2⟩,
   ⟨by decide,
    ((update_tick_transition always_night 5 (pending_gui 2)).2.2 (by decide) (by decide)).1,
    ((update_tick_transition always_night 5 (pending_gui 2)).2.2
      (by decide) (by decide)).2.1⟩⟩

/-- C4: for every prior engine state and every result of `config.apply()`, the click
listener of each of the eight track bars invoked with `Y` pressed, and the click
listeners of "Reset settings" and of "Color range" invoked with `A` pressed, invoke
`config.apply()` exactly once and leave the engine idle with a zero counter. -/
theorem bypass_applies_once (L : Limits) (keys : Nat) (apply_rc : Result)
    (s : FizeauOverlayGui) :
    (pressed keys HidNpadButton_Y = true →
      ∀ w : Slider, (slider_click L w keys apply_rc s).bypassed) ∧
    (pressed keys HidNpadButton_A = true →
      (reset_button_click L keys apply_rc s).bypassed ∧
      (range_button_click L keys apply_rc s).bypassed) :=
  ⟨fun hy w => slider_click_bypassed L w keys apply_rc s hy,
   fun ha => ⟨reset_button_click_bypassed L keys apply_rc s ha,
     range_button_click_bypassed L keys apply_rc s ha⟩⟩

/-- C4 (witness): `Y` alone (8) and `A` alone (1) on the sample session in `Pending(1)`. -/
theorem bypass_applies_once_witness :
    (pressed 8 HidNpadButton_Y = true ∧
      (slider_click scenario Slider.gamma 8 0 (pending_gui 1)).bypassed) ∧
    (pressed 1 HidNpadButton_A = true ∧
      (reset_button_click scenario 1 3 (pending_gui 1)).bypassed ∧
      (range_button_click scenario 1 3 (pending_gui 1)).bypassed) :=
  ⟨⟨by decide, (bypass_applies_once scenario 8 0 (pending_gui 1)).1 (by decide) Slider.gamma⟩,
   ⟨by decide, (bypass_applies_once scenario 1 3 (pending_gui 1)).2 (by decide)⟩⟩

/-- C5: the destructor, for every final state: in any Pending state it calls
`config.apply()` exactly once and then `config.write()` exactly once; in Idle it does
not call `config.apply()` and calls `config.write()` exactly once (`fizeauExit()`
comes last in both cases). -/
theorem dtor_flushes_pending (s : FizeauOverlayGui) :
    (s.pending_apply = true →
      s.dtor = [Effect.apply s.config, Effect.write s.config, Effect.fizeauExit]) ∧
    (s.pending_apply = false →
      s.dtor = [Effect.write s.config, Effect.fizeauExit]) := by
  constructor <;> intro hp <;> simp [FizeauOverlayGui.dtor, hp]

/-- C5 (witness): the sample session torn down in `Pending(1)` and idle. -/
theorem dtor_flushes_pending_witness :
    ((pending_gui 1).pending_apply = true ∧
      (pending_gui 1).dtor = [Effect.apply (pending_gui 1).config,
        Effect.write (pending_gui 1).config, Effect.fizeauExit]) ∧
    (sample_gui.pending_apply = false ∧
      sample_gui.dtor = [Effect.write sample_gui.config, Effect.fizeauExit]) :=
  ⟨⟨by decide, (dtor_flushes_pending (pending_gui 1)).1 (by decide)⟩,
   ⟨by decide, (dtor_flushes_pending sample_gui).2 (by decide)⟩⟩

/-- C7 (amended): in every state in which the stored result code is a failure and
`cur_profile_id` is `Invalid`, one call of `update()` first signals the change to the
error presentation, once, and then goes on as in any other state: `is_day` is
recomputed from the clock and the engine is advanced by one step, which invokes
`config.apply()` exactly when that step does (never from Idle). -/
theorem update_fatal_falls_through (clock : Nat → Nat → Bool) (apply_rc : Result)
    (s : FizeauOverlayGui) (hrc : R_FAILED s.rc = true)
    (hid : s.config.cur_profile_id = FizeauProfileId.Invalid) :
    (update clock apply_rc s).2 = Effect.changeToErrorGui s.rc :: (advance apply_rc s).2 ∧
    (update clock apply_rc s).1.is_day =
      clock s.config.profile.dawn_begin s.config.profile.dusk_begin ∧
    (update clock apply_rc s).1.pending_apply = (advance apply_rc s).1.pending_apply ∧
    (update clock apply_rc s).1.apply_counter = (advance apply_rc s).1.apply_counter ∧
    (s.pending_apply = false → applies (update clock apply_rc s).2 = []) := by
  refine ⟨?_, update_is_day _ _ _, update_pending_apply _ _ _, update_apply_counter _ _ _,
    fun hp => ?_⟩
  · rw [update_effects]
    simp [hrc, hid]
  · rw [update_applies, advance_idle _ _ hp]
    rfl

/-- C7 (witness): the failed sample session, idle. -/
theorem update_fatal_falls_through_witness :
    R_FAILED fatal_gui.rc = true ∧
    fatal_gui.config.cur_profile_id = FizeauProfileId.Invalid ∧
    (update always_day 0 fatal_gui).2 =
      Effect.changeToErrorGui fatal_gui.rc :: (advance 0 fatal_gui).2 :=
  ⟨by decide, by decide, (update_fatal_falls_through always_day 0 fatal_gui
    (by decide) (by decide)).1⟩

/-- C7 (counterexample): on the failed sample session the call of `update()` recomputes
`is_day` (night before, day after); with the engine in `Pending(2)` it also invokes
`config.apply()` and resets the engine. -/
theorem update_fatal_does_work :
    R_FAILED fatal_gui.rc = true ∧
    fatal_gui.config.cur_profile_id = FizeauProfileId.Invalid ∧
    fatal_gui.is_day = false ∧
    (update always_day 0 fatal_gui).1.is_day = true ∧
    R_FAILED fatal_pending_gui.rc = true ∧
    fatal_pending_gui.config.cur_profile_id = FizeauProfileId.Invalid ∧
    applies (update always_day 0 fatal_pending_gui).2 = [fatal_pending_gui.config] ∧
    fatal_pending_gui.pending_apply = true ∧
    (update always_day 0 fatal_pending_gui).1.pending_apply = false := by
  decide

/-! ### Sessions: steps that are not ticks -/

theorem slider_click_not_pressed (L : Limits) (w : Slider) (keys : Nat) (apply_rc : Result)
    (s : FizeauOverlayGui) (hy : pressed keys HidNpadButton_Y = false) :
    slider_click L w keys apply_rc s = not_handled s := by
  cases w <;>
    simp [slider_click, temp_slider_click, sat_slider_click, hue_slider_click,
      components_bar_click, filter_bar_click, contrast_slider_click, gamma_slider_click,
      luma_slider_click, hy]

/-- A step that is not a tick either commits at once (engine idle, counter 0, one
apply) or leaves the counter alone, makes no apply and can only set `pending_apply`. -/
theorem step_not_tick (L : Limits) (s : FizeauOverlayGui) (a : Action)
    (ha : a.isTick = false) :
    ((step L s a).1.pending_apply = false ∧ (step L s a).1.apply_counter = 0) ∨
    ((step L s a).1.apply_counter = s.apply_counter ∧ applies (step L s a).2 = [] ∧
      ((step L s a).1.pending_apply = s.pending_apply ∨
        (step L s a).1.pending_apply = true)) := by
  cases a with
  | edit w val =>
      exact Or.inr ⟨valueChanged_apply_counter L w val s, rfl,
        Or.inr (valueChanged_pending_apply L w val s)⟩
  | click w keys apply_rc =>
      by_cases hy : pressed keys HidNpadButton_Y = true
      · exact Or.inl (slider_click_bypassed L w keys apply_rc s hy).2
      · simp only [Bool.not_eq_true] at hy
        simp [step, slider_click_not_pressed L w keys apply_rc s hy, not_handled, applies]
  | reset keys apply_rc =>
      by_cases hk : pressed keys HidNpadButton_A = true
      · exact Or.inl (reset_button_click_bypassed L keys apply_rc s hk).2
      · simp only [Bool.not_eq_true] at hk
        simp [step, reset_button_click, hk, not_handled, applies]
  | range keys apply_rc =>
      by_cases hk : pressed keys HidNpadButton_A = true
      · exact Or.inl (range_button_click_bypassed L keys apply_rc s hk).2
      · simp only [Bool.not_eq_true] at hk
        simp [step, range_button_click, hk, not_handled, applies]
  | active keys rc =>
      by_cases hk : pressed keys HidNpadButton_A = true
      · simp [step, active_button_click, hk, applies]
      · simp only [Bool.not_eq_true] at hk
        simp [step, active_button_click, hk, not_handled, applies]
  | tick clock apply_rc => simp [Action.isTick] at ha

theorem tick_flags_not_tick (L : Limits) (s : FizeauOverlayGui) (a : Action)
    (rest : List Action) (ha : a.isTick = false) :
    tick_flags L s (a :: rest) = tick_flags L (step L s a).1 rest := by
  cases a <;> first | rfl | simp [Action.isTick] at ha

/-! ### Sessions: spacing of the ticks that apply -/

theorem Spaced_mono : ∀ (l : List Bool) (k k' : Nat), k' ≤ k → Spaced l k → Spaced l k'
  | [], _, _, _, _ => trivial
  | false :: l, k, k', hk, h => Spaced_mono l (k - 1) (k' - 1) (by omega) h
  | true :: _, _, _, hk, h => ⟨by have := h.1; omega, h.2⟩

theorem Spaced_tail (a : Bool) (l : List Bool) (k : Nat) (h : Spaced (a :: l) k) :
    ∃ k', Spaced l k' := by
  cases a with
  | false => exact ⟨k - 1, h⟩
  | true => exact ⟨2, h.2⟩

theorem Spaced_drop : ∀ (i : Nat) (l : List Bool) (k : Nat), Spaced l k →
    ∃ k', Spaced (l.drop i) k'
  | 0, l, k, h => ⟨k, h⟩
  | _ + 1, [], _, _ => ⟨0, trivial⟩
  | i + 1, a :: l, k, h => by
      obtain ⟨k', hk'⟩ := Spaced_tail a l k h
      exact Spaced_drop i l k' hk'

theorem Spaced_first (l : List Bool) : ∀ (k j : Nat), Spaced l k → l[j]? = some true → k ≤ j := by
  induction l with
  | nil => intro k j _ hj; simp at hj
  | cons a l ih =>
      intro k j h hj
      cases a with
      | false =>
          cases j with
          | zero => simp at hj
          | succ j' =>
              have := ih (k - 1) j' h (by simpa using hj)
              omega
      | true =>
          have := h.1
          omega

theorem Spaced_apart (l : List Bool) : ∀ (k i j : Nat), Spaced l k → i < j →
    l[i]? = some true → l[j]? = some true → i + 3 ≤ j := by
  induction l with
  | nil => intro k i j _ _ hi; simp at hi
  | cons a l ih =>
      intro k i j h hij hi hj
      cases j with
      | zero => omega
      | succ j' =>
          cases i with
          | zero =>
              have ha : a = true := by simpa using hi
              subst ha
              have := Spaced_first l 2 j' h.2 (by simpa using hj)
              omega
          | succ i' =>
              obtain ⟨k', hk'⟩ := Spaced_tail a l k h
              have := ih k' i' j' hk' (by omega) (by simpa using hi) (by simpa using hj)
              omega

theorem Spaced_window (l : List Bool) (k : Nat) (h : Spaced l k) :
    (l.take 3).count true ≤ 1 := by
  match l, h with
  | [], _ => simp
  | [a], _ => cases a <;> simp
  | [a, b], h =>
      cases a <;> cases b <;> simp_all [Spaced]
  | a :: b :: c :: _, h =>
      cases a <;> cases b <;> cases c <;> simp_all [Spaced]

theorem ctor_engine_ok (members : FizeauOverlayGui) :
    (FizeauOverlayGui.ctor members).engine_ok := by
  simp [FizeauOverlayGui.engine_ok, FizeauOverlayGui.ctor]

theorem createUI_engine_ok (L : Limits) (s : FizeauOverlayGui) (h : s.engine_ok) :
    (createUI L s).engine_ok := h

theorem step_engine_ok (L : Limits) (s : FizeauOverlayGui) (a : Action) (h : s.engine_ok) :
    (step L s a).1.engine_ok := by
  obtain ⟨h0, h3, hz⟩ := h
  by_cases ha : a.isTick = true
  · cases a with
    | tick clock apply_rc =>
        simp only [step, FizeauOverlayGui.engine_ok, update_pending_apply, update_apply_counter]
        by_cases hp : s.pending_apply = true
        · by_cases hc : s.apply_counter + 1 < 3
          · rw [advance_wait _ _ hp hc]
            simp only []
            refine ⟨by omega, by omega, fun hf => ?_⟩
            rw [hp] at hf
            exact absurd hf (by decide)
          · rw [advance_fire _ _ hp (by omega)]
            simp
        · simp only [Bool.not_eq_true] at hp
          rw [advance_idle _ _ hp]
          exact ⟨h0, h3, hz⟩
    | _ => simp [Action.isTick] at ha
  · simp only [Bool.not_eq_true] at ha
    rcases step_not_tick L s a ha with ⟨hp, hc⟩ | ⟨hc, _, hp | hp⟩
    · simp [FizeauOverlayGui.engine_ok, hp, hc]
    · simp only [FizeauOverlayGui.engine_ok, hc, hp]
      exact ⟨h0, h3, hz⟩
    · simp only [FizeauOverlayGui.engine_ok, hc, hp]
      exact ⟨h0, h3, by simp⟩

theorem run_engine_ok (L : Limits) : ∀ (l : List Action) (s : FizeauOverlayGui),
    s.engine_ok → (run L s l).1.engine_ok
  | [], _, h => h
  | a :: rest, s, h => run_engine_ok L rest (step L s a).1 (step_engine_ok L s a h)

theorem tick_flags_spaced (L : Limits) : ∀ (l : List Action) (s : FizeauOverlayGui),
    s.engine_ok → Spaced (tick_flags L s l) (2 - s.apply_counter).toNat
  | [], _, _ => trivial
  | a :: rest, s, h => by
      have ih := tick_flags_spaced L rest (step L s a).1 (step_engine_ok L s a h)
      obtain ⟨h0, h3, hz⟩ := h
      by_cases ha : a.isTick = true
      · cases a with
        | tick clock apply_rc =>
            simp only [step, update_apply_counter] at ih
            simp only [tick_flags, update_applies]
            by_cases hp : s.pending_apply = true
            · by_cases hc : s.apply_counter + 1 < 3
              · rw [advance_wait _ _ hp hc] at ih ⊢
                simp only [applies, List.isEmpty_nil, Bool.not_true, Spaced]
                refine Spaced_mono _ _ _ ?_ ih
                simp only []
                omega
              · have hc2 : s.apply_counter = 2 := by omega
                rw [advance_fire _ _ hp (by omega)] at ih ⊢
                simp only [applies, List.isEmpty_cons, Bool.not_false, Spaced]
                refine ⟨by omega, Spaced_mono _ _ _ ?_ ih⟩
                simp
            · simp only [Bool.not_eq_true] at hp
              rw [advance_idle _ _ hp] at ih ⊢
              simp only [applies, List.isEmpty_nil, Bool.not_true, Spaced]
              simp only [] at ih
              exact Spaced_mono _ _ _ (by omega) ih
        | _ => simp [Action.isTick] at ha
      · simp only [Bool.not_eq_true] at ha
        rw [tick_flags_not_tick L s a rest ha]
        rcases step_not_tick L s a ha with ⟨_, hc⟩ | ⟨hc, _, _⟩
        · rw [hc] at ih
          exact Spaced_mono _ _ _ (by omega) ih
        · rw [hc] at ih
          exact ih

/-- C6: in every session started by the constructor and `createUI` and made of any
sequence of value changes, clicks (immediate commits included) and ticks, any three
consecutive ticks contain at most one tick on which `update()` invokes
`config.apply()`; two ticks that apply are at least three ticks apart; and throughout
`apply_counter` stays in `[0, 3)` and is 0 whenever `pending_apply` is false. -/
theorem at_most_one_apply_per_window (L : Limits) (members : FizeauOverlayGui)
    (l : List Action) :
    (∀ i : Nat,
      (((tick_flags L (createUI L (FizeauOverlayGui.ctor members)) l).drop i).take 3).count
        true ≤ 1) ∧
    (∀ i j : Nat, i < j →
      (tick_flags L (createUI L (FizeauOverlayGui.ctor members)) l)[i]? = some true →
      (tick_flags L (createUI L (FizeauOverlayGui.ctor members)) l)[j]? = some true →
      i + 3 ≤ j) ∧
    (run L (createUI L (FizeauOverlayGui.ctor members)) l).1.engine_ok := by
  have h0 := createUI_engine_ok L _ (ctor_engine_ok members)
  have hs := tick_flags_spaced L l _ h0
  refine ⟨fun i => ?_, fun i j hij hi hj => Spaced_apart _ _ i j hs hij hi hj,
    run_engine_ok L l _ h0⟩
  obtain ⟨k', hk'⟩ := Spaced_drop i _ _ hs
  exact Spaced_window _ k' hk'

/-- C6 (witness): on the sample session the third and the sixth tick apply, three
ticks apart. -/
theorem at_most_one_apply_per_window_witness :
    tick_flags scenario (createUI scenario (FizeauOverlayGui.ctor sample_members))
      sample_session = [false, false, true, false, false, true] ∧
    2 + 3 ≤ 5 ∧
    (((tick_flags scenario (createUI scenario (FizeauOverlayGui.ctor sample_members))
      sample_session).drop 2).take 3).count true ≤ 1 :=
  ⟨by decide,
   (at_most_one_apply_per_window scenario sample_members sample_session).2.1 2 5
     (by decide) (by decide) (by decide),
   (at_most_one_apply_per_window scenario sample_members sample_session).1 2⟩

/-! ### Sessions: bursts of edits -/

theorem run_cons (L : Limits) (s : FizeauOverlayGui) (a : Action) (rest : List Action) :
    run L s (a :: rest) =
      ((run L (step L s a).1 rest).1, (step L s a).2 ++ (run L (step L s a).1 rest).2) := rfl

theorem run_append (L : Limits) : ∀ (l₁ l₂ : List Action) (s : FizeauOverlayGui),
    run L s (l₁ ++ l₂) =
      ((run L (run L s l₁).1 l₂).1, (run L s l₁).2 ++ (run L (run L s l₁).1 l₂).2)
  | [], _, _ => rfl
  | a :: rest, l₂, s => by
      simp only [List.cons_append, run_cons, run_append L rest l₂, List.append_assoc]

theorem ticks_tick (clock : Nat → Nat → Bool) (apply_rc : Result) (l : List Action) :
    ticks (Action.tick clock apply_rc :: l) = ticks l + 1 := by
  simp [ticks, Action.isTick]

theorem ticks_edit (w : Slider) (val : Fin 256) (l : List Action) :
    ticks (Action.edit w val :: l) = ticks l := by
  simp [ticks, Action.isTick]

/-- Ticks on an idle engine do nothing to it and apply nothing. -/
theorem run_ticks_idle (L : Limits) : ∀ (l : List Action) (s : FizeauOverlayGui),
    (∀ a ∈ l, a.isTick = true) → s.pending_apply = false →
    applies (run L s l).2 = [] ∧ (run L s l).1.pending_apply = false ∧
      (run L s l).1.apply_counter = s.apply_counter
  | [], _, _, hp => ⟨rfl, hp, rfl⟩
  | a :: rest, s, hl, hp => by
      have ha := hl a (List.mem_cons_self _ _)
      cases a with
      | tick clock apply_rc =>
          have hp' : (update clock apply_rc s).1.pending_apply = false := by
            rw [update_pending_apply, advance_idle _ _ hp]; exact hp
          have hc' : (update clock apply_rc s).1.apply_counter = s.apply_counter := by
            rw [update_apply_counter, advance_idle _ _ hp]
          have he : applies (update clock apply_rc s).2 = [] := by
            rw [update_applies, advance_idle _ _ hp]; rfl
          have ih := run_ticks_idle L rest (update clock apply_rc s).1
            (fun b hb => hl b (List.mem_cons_of_mem _ hb)) hp'
          simp only [run_cons, step, applies_append, he, ih.1, List.append_nil]
          exact ⟨trivial, ih.2.1, by rw [ih.2.2, hc']⟩
      | _ => simp [Action.isTick] at ha

/-- While something is pending, edits and fewer ticks than are left to the threshold
apply nothing; the counter counts the ticks. -/
theorem run_pending_phase (L : Limits) : ∀ (l : List Action) (s : FizeauOverlayGui),
    (∀ a ∈ l, a.isEdit = true ∨ a.isTick = true) → s.pending_apply = true →
    s.apply_counter + ticks l < 3 →
    applies (run L s l).2 = [] ∧ (run L s l).1.pending_apply = true ∧
      (run L s l).1.apply_counter = s.apply_counter + ticks l
  | [], _, _, hp, _ => ⟨rfl, hp, by simp [run, ticks]⟩
  | a :: rest, s, hl, hp, hc => by
      have ha := hl a (List.mem_cons_self _ _)
      have hrest : ∀ b ∈ rest, b.isEdit = true ∨ b.isTick = true :=
        fun b hb => hl b (List.mem_cons_of_mem _ hb)
      cases a with
      | edit w val =>
          rw [ticks_edit] at hc ⊢
          have ih := run_pending_phase L rest (valueChanged L w val s) hrest
            (valueChanged_pending_apply L w val s)
            (by rw [valueChanged_apply_counter]; exact hc)
          simp only [run_cons, step, List.nil_append]
          exact ⟨ih.1, ih.2.1, by rw [ih.2.2, valueChanged_apply_counter]⟩
      | tick clock apply_rc =>
          rw [ticks_tick] at hc ⊢
          have hlt : s.apply_counter + 1 < 3 := by omega
          have hp' : (update clock apply_rc s).1.pending_apply = true := by
            rw [update_pending_apply, advance_wait _ _ hp hlt]; exact hp
          have hc' : (update clock apply_rc s).1.apply_counter = s.apply_counter + 1 := by
            rw [update_apply_counter, advance_wait _ _ hp hlt]
          have he : applies (update clock apply_rc s).2 = [] := by
            rw [update_applies, advance_wait _ _ hp hlt]; rfl
          have ih := run_pending_phase L rest (update clock apply_rc s).1 hrest hp'
            (by rw [hc']; omega)
          simp only [run_cons, step, applies_append, he, ih.1, List.append_nil]
          refine ⟨trivial, ih.2.1, ?_⟩
          rw [ih.2.2, hc']
          push_cast
          omega
      | _ => simp [Action.isEdit, Action.isTick] at ha

/-- From idle: edits and ticks, then one more edit, with fewer than three ticks after
the first edit, apply nothing and leave the counter at the number of those ticks. -/
theorem run_burst (L : Limits) (w : Slider) (val : Fin 256) :
    ∀ (l : List Action) (s : FizeauOverlayGui),
    (∀ a ∈ l, a.isEdit = true ∨ a.isTick = true) → s.pending_apply = false →
    s.apply_counter = 0 → ticks_after_first_edit l < 3 →
    applies (run L s (l ++ [Action.edit w val])).2 = [] ∧
      (run L s (l ++ [Action.edit w val])).1.pending_apply = true ∧
      (run L s (l ++ [Action.edit w val])).1.apply_counter = ticks_after_first_edit l
  | [], s, _, _, hc, _ => by
      simp only [List.nil_append, run_cons, step, run]
      exact ⟨rfl, valueChanged_pending_apply L w val s,
        by rw [valueChanged_apply_counter, hc]; rfl⟩
  | a :: rest, s, hl, hp, hc, hj => by
      have ha := hl a (List.mem_cons_self _ _)
      have hrest : ∀ b ∈ rest, b.isEdit = true ∨ b.isTick = true :=
        fun b hb => hl b (List.mem_cons_of_mem _ hb)
      cases a with
      | edit w' val' =>
          have hj' : ticks_after_first_edit (Action.edit w' val' :: rest) = ticks rest := by
            simp [ticks_after_first_edit, List.dropWhile, Action.isTick, ticks]
          rw [hj'] at hj ⊢
          have hall : ∀ b ∈ rest ++ [Action.edit w val], b.isEdit = true ∨ b.isTick = true := by
            intro b hb
            rcases List.mem_append.1 hb with hb | hb
            · exact hrest b hb
            · rw [List.mem_singleton.1 hb]; exact Or.inl rfl
          have ht : ticks (rest ++ [Action.edit w val]) = ticks rest := by
            simp [ticks, Action.isTick]
          have ih := run_pending_phase L (rest ++ [Action.edit w val])
            (valueChanged L w' val' s) hall (valueChanged_pending_apply L w' val' s)
            (by rw [valueChanged_apply_counter, hc, ht]; omega)
          simp only [List.cons_append, run_cons, step, List.nil_append]
          refine ⟨ih.1, ih.2.1, ?_⟩
          rw [ih.2.2, valueChanged_apply_counter, hc, ht]
          simp
      | tick clock apply_rc =>
          have hj' : ticks_after_first_edit (Action.tick clock apply_rc :: rest) =
              ticks_after_first_edit rest := by
            simp [ticks_after_first_edit, List.dropWhile, Action.isTick]
          rw [hj'] at hj ⊢
          have hp' : (update clock apply_rc s).1.pending_apply = false := by
            rw [update_pending_apply, advance_idle _ _ hp]; exact hp
          have hc' : (update clock apply_rc s).1.apply_counter = 0 := by
            rw [update_apply_counter, advance_idle _ _ hp]; exact hc
          have he : applies (update clock apply_rc s).2 = [] := by
            rw [update_applies, advance_idle _ _ hp]; rfl
          have ih := run_burst L w val rest (update clock apply_rc s).1 hrest hp' hc' hj
          simp only [List.cons_append, run_cons, step, applies_append, he, ih.1,
            List.append_nil]
          exact ⟨trivial, ih.2.1, ih.2.2⟩
      | _ => simp [Action.isEdit, Action.isTick] at ha

/-- Only ticks on a pending engine: one apply, of the configuration as it stands, on
the tick that brings the counter to three, none before and none after. -/
theorem run_ticks_pending (L : Limits) : ∀ (l : List Action) (s : FizeauOverlayGui),
    (∀ a ∈ l, a.isTick = true) → s.pending_apply = true → 0 ≤ s.apply_counter →
    s.apply_counter < 3 →
    applies (run L s l).2 =
      if (3 - s.apply_counter).toNat ≤ l.length then [s.config] else []
  | [], s, _, _, _, h3 => by
      have : ¬ ((3 - s.apply_counter).toNat ≤ 0) := by omega
      simp [run, applies, this]
  | a :: rest, s, hl, hp, h0, h3 => by
      have ha := hl a (List.mem_cons_self _ _)
      have hrest : ∀ b ∈ rest, b.isTick = true :=
        fun b hb => hl b (List.mem_cons_of_mem _ hb)
      cases a with
      | tick clock apply_rc =>
          by_cases hlt : s.apply_counter + 1 < 3
          · have hp' : (update clock apply_rc s).1.pending_apply = true := by
              rw [update_pending_apply, advance_wait _ _ hp hlt]; exact hp
            have hc' : (update clock apply_rc s).1.apply_counter = s.apply_counter + 1 := by
              rw [update_apply_counter, advance_wait _ _ hp hlt]
            have he : applies (update clock apply_rc s).2 = [] := by
              rw [update_applies, advance_wait _ _ hp hlt]; rfl
            have ih := run_ticks_pending L rest (update clock apply_rc s).1 hrest hp'
              (by rw [hc']; omega) (by rw [hc']; omega)
            simp only [run_cons, step, applies_append, he, ih, List.nil_append,
              update_config, hc', List.length_cons]
            by_cases hle : (3 - (s.apply_counter + 1)).toNat ≤ rest.length
            · have : (3 - s.apply_counter).toNat ≤ rest.length + 1 := by omega
              simp [hle, this]
            · have : ¬ ((3 - s.apply_counter).toNat ≤ rest.length + 1) := by omega
              simp [hle, this]
          · have hp' : (update clock apply_rc s).1.pending_apply = false := by
              rw [update_pending_apply, advance_fire _ _ hp (by omega)]
            have he : applies (update clock apply_rc s).2 = [s.config] := by
              rw [update_applies, advance_fire _ _ hp (by omega)]
              simp [applies, applies_log]
            have ih := run_ticks_idle L rest (update clock apply_rc s).1 hrest hp'
            have : (3 - s.apply_counter).toNat ≤ rest.length + 1 := by omega
            simp [run_cons, step, applies_append, he, ih.1, this]
      | _ => simp [Action.isTick] at ha

/-- C1 (amended): take any schedule, starting from Idle with a zero counter, of edits
and ticks that ends with an edit and has `j < 3` ticks between its first and its last
edit. Then `update()` invokes `config.apply()` zero times up to the last edit and, when
only ticks follow, exactly once: on tick `3 - j` after the last edit, that is on the
third tick after the first edit, with the configuration as left by the last edit.
Edits do not restart the count. -/
theorem burst_applies_once (L : Limits) (s : FizeauOverlayGui) (pre : List Action)
    (w : Slider) (val : Fin 256) (post : List Action)
    (hidle : s.pending_apply = false) (hzero : s.apply_counter = 0)
    (hpre : pre.all (fun a => a.isEdit || a.isTick) = true)
    (hj : ticks_after_first_edit pre < 3)
    (hpost : post.all Action.isTick = true) :
    applies (run L s (pre ++ [Action.edit w val])).2 = [] ∧
    applies (run L (run L s (pre ++ [Action.edit w val])).1 post).2 =
      if 3 - ticks_after_first_edit pre ≤ post.length then
        [(run L s (pre ++ [Action.edit w val])).1.config]
      else [] := by
  have hpre' : ∀ a ∈ pre, a.isEdit = true ∨ a.isTick = true := by
    intro a ha
    have := List.all_eq_true.1 hpre a ha
    simpa using this
  have hpost' : ∀ a ∈ post, a.isTick = true := List.all_eq_true.1 hpost
  obtain ⟨h1, h2, h3⟩ := run_burst L w val pre s hpre' hidle hzero hj
  refine ⟨h1, ?_⟩
  rw [run_ticks_pending L post _ hpost' h2 (by rw [h3]; omega) (by rw [h3]; omega), h3]
  by_cases hle : 3 - ticks_after_first_edit pre ≤ post.length
  · have : (3 - (ticks_after_first_edit pre : Int)).toNat ≤ post.length := by omega
    simp [hle, this]
  · have : ¬ ((3 - (ticks_after_first_edit pre : Int)).toNat ≤ post.length) := by omega
    simp [hle, this]

/-- C1 (witness): on the sample session, an edit, two ticks and a second edit; the
apply comes with the first of three ticks that follow. -/
theorem burst_applies_once_witness :
    ticks_after_first_edit
      [Action.edit Slider.temp 10, Action.tick always_day 0, Action.tick always_day 0] = 2 ∧
    applies (run scenario sample_gui
      ([Action.edit Slider.temp 10, Action.tick always_day 0, Action.tick always_day 0] ++
        [Action.edit Slider.temp 20])).2 = [] ∧
    applies (run scenario (run scenario sample_gui
      ([Action.edit Slider.temp 10, Action.tick always_day 0, Action.tick always_day 0] ++
        [Action.edit Slider.temp 20])).1 [Action.tick always_day 0]).2 =
      [(run scenario sample_gui
        ([Action.edit Slider.temp 10, Action.tick always_day 0, Action.tick always_day 0] ++
          [Action.edit Slider.temp 20])).1.config] :=
  ⟨by decide,
   (burst_applies_once scenario sample_gui
      [Action.edit Slider.temp 10, Action.tick always_day 0, Action.tick always_day 0]
      Slider.temp 20 [Action.tick always_day 0]
      (by decide) (by decide) (by decide) (by decide) (by decide)).1,
   (burst_applies_once scenario sample_gui
      [Action.edit Slider.temp 10, Action.tick always_day 0, Action.tick always_day 0]
      Slider.temp 20 [Action.tick always_day 0]
      (by decide) (by decide) (by decide) (by decide) (by decide)).2.trans
      (if_pos (by decide))⟩

/-- C1 (counterexample): on the sample session, edits two ticks apart. With two
edits, `update()` applies on the first tick after the last edit and not on the third;
with three edits it applies on the third tick, before the last edit. -/
theorem burst_not_debounced :
    tick_flags scenario sample_gui
      [.edit .temp 10, .tick always_day 0, .tick always_day 0, .edit .temp 20,
        .tick always_day 0, .tick always_day 0, .tick always_day 0] =
      [false, false, true, false, false] ∧
    tick_flags scenario sample_gui
      [.edit .temp 10, .tick always_day 0, .tick always_day 0, .edit .temp 20,
        .tick always_day 0, .tick always_day 0, .edit .temp 30] =
      [false, false, true, false] := by
  decide

/-! ### Parameter codec -/

theorem roundtrip_core (x D : Int) (hD : 0 < D) :
    x * 100 / D * D / 100 ≤ x ∧ (x - x * 100 / D * D / 100) * 100 ≤ D + 98 ∧
      ((100 : Int) ∣ D → (x - x * 100 / D * D / 100) * 100 < D) := by
  have h1 := Int.emod_add_ediv (x * 100) D
  have h2 := Int.emod_nonneg (x * 100) (ne_of_gt hD)
  have h3 := Int.emod_lt_of_pos (x * 100) hD
  have hc : x * 100 / D * D = D * (x * 100 / D) := mul_comm _ _
  have hdvd : (100 : Int) ∣ D → (100 : Int) ∣ D * (x * 100 / D) := fun h => Dvd.dvd.mul_right h _
  rw [hc]
  generalize D * (x * 100 / D) = p at *
  generalize x * 100 % D = r at *
  refine ⟨by omega, by omega, fun h => ?_⟩
  have := hdvd h
  omega

theorem encode_eq (value min max : Int) (hlt : min < max) (hlo : min ≤ value) :
    encode value min max = (value - min) * 100 / (max - min) := by
  unfold encode
  exact Int.tdiv_eq_ediv (by omega) (by omega)

theorem encode_nonneg (value min max : Int) (hlt : min < max) (hlo : min ≤ value) :
    0 ≤ encode value min max := by
  rw [encode_eq value min max hlt hlo]
  exact Int.ediv_nonneg (by omega) (by omega)

theorem decode_eq (val min max : Int) (hlt : min < max) (hval : 0 ≤ val) :
    decode val min max = val * (max - min) / 100 + min := by
  unfold decode
  rw [Int.tdiv_eq_ediv (Int.mul_nonneg hval (by omega)) (by omega)]

/-- C8 (amended): for all integers `min < max` and `min ≤ value ≤ max`, with the
truncating divisions of the slider code, `decode(encode(value))` never exceeds `value`
and falls short of it by less than one slider unit plus one:
`(value - decode(encode(value))) * 100 ≤ (max - min) + 98`. When `max - min` is a
multiple of 100 the distance is less than one slider unit,
`|value - decode(encode(value))| * 100 ≤ max - min`. -/
theorem roundtrip_drift (min max value : Int) (hlt : min < max) (hlo : min ≤ value)
    (hhi : value ≤ max) :
    decode (encode value min max) min max ≤ value ∧
    (value - decode (encode value min max) min max) * 100 ≤ (max - min) + 98 ∧
    ((100 : Int) ∣ (max - min) →
      |value - decode (encode value min max) min max| * 100 ≤ max - min) := by
  have _ := hhi
  rw [decode_eq _ min max hlt (encode_nonneg value min max hlt hlo),
    encode_eq value min max hlt hlo]
  obtain ⟨h1, h2, h3⟩ := roundtrip_core (value - min) (max - min) (by omega)
  refine ⟨by omega, by omega, fun h => ?_⟩
  have h4 := h3 h
  rw [abs_of_nonneg (by omega)]
  omega

/-- C8 (witness): the temperature 8000 K on the range `[1000, 20000]` of the scenario
comes back as 7840 K, 160 K below and within one slider unit of 190 K. -/
theorem roundtrip_drift_witness :
    (1000 : Int) < 20000 ∧ (1000 : Int) ≤ 8000 ∧ (8000 : Int) ≤ 20000 ∧
    decode (encode 8000 1000 20000) 1000 20000 ≤ 8000 ∧
    decode (encode 8000 1000 20000) 1000 20000 = 7840 :=
  ⟨by decide, by decide, by decide,
   (roundtrip_drift 1000 20000 8000 (by decide) (by decide) (by decide)).1, by decide⟩

/-- C8 (counterexample): on the range `[0, 3]` the value 1 is encoded as 33 and decoded
as 0, and on `[0, 199]` the value 3 is encoded as 1 and decoded as 1; in both cases
the distance times 100 exceeds `max - min`. -/
theorem roundtrip_exceeds_unit :
    ((0 : Int) < 3 ∧ (0 : Int) ≤ 1 ∧ (1 : Int) ≤ 3 ∧
      encode 1 0 3 = 33 ∧ decode (encode 1 0 3) 0 3 = 0 ∧
      ¬ (|1 - decode (encode 1 0 3) 0 3| * 100 ≤ 3 - 0)) ∧
    ((0 : Int) < 199 ∧ (0 : Int) ≤ 3 ∧ (3 : Int) ≤ 199 ∧
      encode 3 0 199 = 1 ∧ decode (encode 3 0 199) 0 199 = 1 ∧
      ¬ (|3 - decode (encode 3 0 199) 0 199| * 100 ≤ 199 - 0)) := by
  decide

theorem temp_bound_le (L : Limits) (hot : Bool) (h1 : L.MIN_TEMP < L.D65_TEMP)
    (h2 : L.D65_TEMP ≤ L.MAX_TEMP) :
    L.MIN_TEMP < temp_bound L hot ∧ temp_bound L hot ≤ L.MAX_TEMP := by
  cases hot <;> simp [temp_bound] <;> omega

theorem valueChanged_temp_settings (L : Limits) (val : Fin 256) (s : FizeauOverlayGui) :
    (valueChanged L Slider.temp val s).settings.temperature =
      temp_value L s.enable_extra_hot_temps val := by
  simp [valueChanged, temp_slider_valueChanged, FizeauOverlayGui.settings,
    FizeauOverlayGui.assign]
  cases s.is_day <;> simp

theorem temp_progress_eq (L : Limits) (hot : Bool) (t : Int) (h1 : L.MIN_TEMP < L.D65_TEMP)
    (h2 : L.D65_TEMP ≤ L.MAX_TEMP) (hlo : L.MIN_TEMP ≤ t) (hhi : t ≤ temp_bound L hot)
    (hfit : 100 * (L.MAX_TEMP - L.MIN_TEMP) < 4294967296) :
    temp_progress L hot t = encode t L.MIN_TEMP (temp_bound L hot) ∧
    0 ≤ temp_progress L hot t ∧ temp_progress L hot t ≤ 100 := by
  obtain ⟨hb1, hb2⟩ := temp_bound_le L hot h1 h2
  rw [encode_eq _ _ _ hb1 hlo]
  unfold temp_progress u32 u8
  generalize temp_bound L hot = b at *
  have hd : (b - L.MIN_TEMP) % 4294967296 = b - L.MIN_TEMP := by omega
  have hx : (t - L.MIN_TEMP) % 4294967296 * 100 % 4294967296 = (t - L.MIN_TEMP) * 100 := by
    omega
  rw [hd, hx]
  have hq0 : 0 ≤ (t - L.MIN_TEMP) * 100 / (b - L.MIN_TEMP) :=
    Int.ediv_nonneg (by omega) (by omega)
  have hq1 : (t - L.MIN_TEMP) * 100 / (b - L.MIN_TEMP) ≤ 100 :=
    Int.ediv_le_of_le_mul (by omega) (by omega)
  generalize (t - L.MIN_TEMP) * 100 / (b - L.MIN_TEMP) = q at *
  omega

/-- C10: at UI creation, given `MIN_TEMP < D65_TEMP ≤ MAX_TEMP` and a stored
temperature `t` of the current period with `MIN_TEMP ≤ t ≤ MAX_TEMP` (and
`100 * (MAX_TEMP - MIN_TEMP)` within 32 bits), the upper bound of the slider is
`MAX_TEMP` if `t > D65_TEMP` and `D65_TEMP` otherwise, and the initial position is
`(t - MIN_TEMP) * 100 / (bound - MIN_TEMP)` and lies in `[0, 100]`; for
`t = 8000`, `MIN_TEMP = 1000`, `D65_TEMP = 6500`, `MAX_TEMP = 20000` the bound is
20000 and the position is `encode(8000, 1000, 20000) = 36`, not the position 127
against the bound 6500. -/
theorem createUI_temp_bound (L : Limits) (s : FizeauOverlayGui)
    (h1 : L.MIN_TEMP < L.D65_TEMP) (h2 : L.D65_TEMP ≤ L.MAX_TEMP)
    (hlo : L.MIN_TEMP ≤ s.settings.temperature) (hhi : s.settings.temperature ≤ L.MAX_TEMP)
    (hfit : 100 * (L.MAX_TEMP - L.MIN_TEMP) < 4294967296) :
    temp_bound L (createUI L s).enable_extra_hot_temps =
      (if s.settings.temperature > L.D65_TEMP then L.MAX_TEMP else L.D65_TEMP) ∧
    (createUI L s).temp_slider =
      encode s.settings.temperature L.MIN_TEMP
        (temp_bound L (createUI L s).enable_extra_hot_temps) ∧
    0 ≤ (createUI L s).temp_slider ∧ (createUI L s).temp_slider ≤ 100 ∧
    (L.MIN_TEMP = 1000 → L.D65_TEMP = 6500 → L.MAX_TEMP = 20000 →
      s.settings.temperature = 8000 →
      temp_bound L (createUI L s).enable_extra_hot_temps = 20000 ∧
      (createUI L s).temp_slider = 36 ∧ encode 8000 1000 20000 = 36 ∧
      encode 8000 1000 6500 = 127) := by
  have hb : temp_bound L (createUI L s).enable_extra_hot_temps =
      (if s.settings.temperature > L.D65_TEMP then L.MAX_TEMP else L.D65_TEMP) := by
    by_cases h : s.settings.temperature > L.D65_TEMP <;> simp [createUI, temp_bound, h]
  have hle : s.settings.temperature ≤ temp_bound L (createUI L s).enable_extra_hot_temps := by
    rw [hb]
    split <;> omega
  have hp := temp_progress_eq L (createUI L s).enable_extra_hot_temps s.settings.temperature
    h1 h2 hlo hle hfit
  have hs : (createUI L s).temp_slider =
      temp_progress L (createUI L s).enable_extra_hot_temps s.settings.temperature := rfl
  refine ⟨hb, by rw [hs]; exact hp.1, by rw [hs]; exact hp.2.1, by rw [hs]; exact hp.2.2, ?_⟩
  intro e1 e2 e3 e4
  have hb' : temp_bound L (createUI L s).enable_extra_hot_temps = 20000 := by
    rw [hb, e4, e2, e3]; decide
  refine ⟨hb', ?_, by decide, by decide⟩
  rw [hs, hp.1, hb', e1, e4]
  decide

/-- C10 (witness): the scenario itself, on the sample session (stored temperature
8000 K): bound 20000 and position 36. -/
theorem createUI_temp_bound_witness :
    scenario.MIN_TEMP < scenario.D65_TEMP ∧ scenario.D65_TEMP ≤ scenario.MAX_TEMP ∧
    scenario.MIN_TEMP ≤ sample_gui.settings.temperature ∧
    sample_gui.settings.temperature ≤ scenario.MAX_TEMP ∧
    temp_bound scenario (createUI scenario sample_gui).enable_extra_hot_temps = 20000 ∧
    (createUI scenario sample_gui).temp_slider = 36 :=
  ⟨by decide, by decide, by decide, by decide,
   ((createUI_temp_bound scenario sample_gui (by decide) (by decide) (by decide) (by decide)
      (by decide)).2.2.2.2 rfl rfl rfl rfl).1,
   ((createUI_temp_bound scenario sample_gui (by decide) (by decide) (by decide) (by decide)
      (by decide)).2.2.2.2 rfl rfl rfl rfl).2.1⟩

/-! ### Range toggle, filter codec, period-aware writes -/

theorem settings_congr {a b : FizeauOverlayGui} (hd : a.is_day = b.is_day)
    (hc : a.config = b.config) : a.settings = b.settings := by
  unfold FizeauOverlayGui.settings
  rw [hd, hc]

theorem range_button_click_range (L : Limits) (keys : Nat) (apply_rc : Result)
    (s : FizeauOverlayGui) (ha : pressed keys HidNpadButton_A = true) :
    (range_button_click L keys apply_rc s).gui.settings.range =
      (if is_full L s.settings.range = true then L.DEFAULT_LIMITED_RANGE
        else L.DEFAULT_RANGE) ∧
    (range_button_click L keys apply_rc s).gui.range_button =
      is_full L (range_button_click L keys apply_rc s).gui.settings.range := by
  by_cases hf : is_full L s.settings.range = true
  · have e : (range_button_click L keys apply_rc s).gui.settings =
        (s.assign fun c => { c with range := L.DEFAULT_LIMITED_RANGE }).settings := by
      simp only [range_button_click, ha, hf, if_true]
      exact settings_congr rfl rfl
    have e2 : (range_button_click L keys apply_rc s).gui.range_button =
        is_full L (s.assign fun c => { c with range := L.DEFAULT_LIMITED_RANGE }).settings.range := by
      simp only [range_button_click, ha, hf, if_true]
      rfl
    rw [e2, e, assign_settings]
    simp [hf]
  · have e : (range_button_click L keys apply_rc s).gui.settings =
        (s.assign fun c => { c with range := L.DEFAULT_RANGE }).settings := by
      simp only [range_button_click, ha, hf, if_true, if_false]
      exact settings_congr rfl rfl
    have e2 : (range_button_click L keys apply_rc s).gui.range_button =
        is_full L (s.assign fun c => { c with range := L.DEFAULT_RANGE }).settings.range := by
      simp only [range_button_click, ha, hf, if_true, if_false]
      rfl
    rw [e2, e, assign_settings]
    simp [hf]

/-- C12: with `DEFAULT_RANGE` the Full pair `(MIN_RANGE, MAX_RANGE)` and
`DEFAULT_LIMITED_RANGE` not Full, in every session whose range of the current period
is Full, the click listener of "Color range" invoked twice with `A` pressed sets the
range to `DEFAULT_LIMITED_RANGE` (label "Limited") the first time and back to exactly
`(MIN_RANGE, MAX_RANGE)` (label "Full") the second time. -/
theorem range_toggle_round_trip (L : Limits) (s : FizeauOverlayGui) (keys₁ keys₂ : Nat)
    (rc₁ rc₂ : Result)
    (hdef : L.DEFAULT_RANGE = { lo := L.MIN_RANGE, hi := L.MAX_RANGE })
    (hlim : is_full L L.DEFAULT_LIMITED_RANGE = false)
    (hfull : is_full L s.settings.range = true)
    (h₁ : pressed keys₁ HidNpadButton_A = true) (h₂ : pressed keys₂ HidNpadButton_A = true) :
    (range_button_click L keys₁ rc₁ s).gui.settings.range = L.DEFAULT_LIMITED_RANGE ∧
    (range_button_click L keys₁ rc₁ s).gui.range_button = false ∧
    (range_button_click L keys₂ rc₂ (range_button_click L keys₁ rc₁ s).gui).gui.settings.range =
      { lo := L.MIN_RANGE, hi := L.MAX_RANGE } ∧
    (range_button_click L keys₂ rc₂ (range_button_click L keys₁ rc₁ s).gui).gui.range_button =
      true := by
  obtain ⟨a1, a2⟩ := range_button_click_range L keys₁ rc₁ s h₁
  obtain ⟨b1, b2⟩ := range_button_click_range L keys₂ rc₂ (range_button_click L keys₁ rc₁ s).gui h₂
  rw [hfull] at a1
  simp only [if_true] at a1
  rw [a1, hlim] at b1
  simp only [Bool.false_eq_true, if_false] at b1
  refine ⟨a1, by rw [a2, a1, hlim], by rw [b1, hdef], ?_⟩
  rw [b2, b1, hdef]
  simp [is_full]

theorem scenario_limited_not_full : is_full scenario scenario.DEFAULT_LIMITED_RANGE = false := by
  simp [is_full, scenario]

theorem sample_gui_range_full : is_full scenario sample_gui.settings.range = true := by
  have h : sample_gui.settings.range = { lo := 0, hi := 1 } := rfl
  rw [h]
  simp [is_full, scenario]

/-- C12 (witness): the sample session (range Full) with the presets of the scenario,
`A` pressed alone twice. -/
theorem range_toggle_round_trip_witness :
    scenario.DEFAULT_RANGE = { lo := scenario.MIN_RANGE, hi := scenario.MAX_RANGE } ∧
    is_full scenario scenario.DEFAULT_LIMITED_RANGE = false ∧
    is_full scenario sample_gui.settings.range = true ∧
    pressed 1 HidNpadButton_A = true ∧
    (range_button_click scenario 1 0 sample_gui).gui.settings.range =
      scenario.DEFAULT_LIMITED_RANGE ∧
    (range_button_click scenario 1 0 (range_button_click scenario 1 0 sample_gui).gui).gui.settings.range =
      { lo := scenario.MIN_RANGE, hi := scenario.MAX_RANGE } :=
  ⟨rfl, scenario_limited_not_full, sample_gui_range_full, by decide,
   (range_toggle_round_trip scenario sample_gui 1 1 0 0 rfl scenario_limited_not_full
      sample_gui_range_full (by decide) (by decide)).1,
   (range_toggle_round_trip scenario sample_gui 1 1 0 0 rfl scenario_limited_not_full
      sample_gui_range_full (by decide) (by decide)).2.2.1⟩

theorem filter_bar_valueChanged_filter (val : Fin 256) (s : FizeauOverlayGui) :
    (filter_bar_valueChanged val s).config.profile.filter = filter_mask val := rfl

theorem createUI_filter_bar (L : Limits) (s : FizeauOverlayGui) :
    (createUI L s).filter_bar = filter_progress s.config.profile.filter := rfl

theorem filter_codec_table :
    ∀ n : Nat, (h : n < 256) → n ≤ 3 →
      filter_mask ⟨n, h⟩ = (if n = 0 then 0 else 1 <<< (n - 1)) ∧
      (n ≠ 0 → filter_mask ⟨n, h⟩ = 1 ∨ filter_mask ⟨n, h⟩ = 2 ∨ filter_mask ⟨n, h⟩ = 4) ∧
      filter_progress (filter_mask ⟨n, h⟩) = n := by
  intro n h h3
  have key : filter_mask ⟨n, h⟩ = (if n ≠ 0 then BIT (n - 1) else n) := rfl
  rw [key]
  clear key h
  interval_cases n <;> decide

/-- C13: for every index `i` in `0..3` the value-changed listener of `filter_bar`
stores the mask 0 (`Component_None`) when `i = 0` and the single-bit mask
`1 << (i - 1)` when `i` is 1, 2 or 3 (one of 1, 2, 4: exactly one of the three low
bits), and the position `createUI` computes from the stored filter (0 for none,
otherwise count of trailing zeros plus one) is `i` again. -/
theorem filter_codec_round_trip (L : Limits) (i : Fin 256) (s : FizeauOverlayGui)
    (hi : i.val ≤ 3) :
    (filter_bar_valueChanged i s).config.profile.filter =
      (if i.val = 0 then Component_None else 1 <<< (i.val - 1)) ∧
    (i.val ≠ 0 →
      (filter_bar_valueChanged i s).config.profile.filter = 1 ∨
      (filter_bar_valueChanged i s).config.profile.filter = 2 ∨
      (filter_bar_valueChanged i s).config.profile.filter = 4) ∧
    (createUI L (filter_bar_valueChanged i s)).filter_bar = i.val := by
  obtain ⟨n, hn⟩ := i
  obtain ⟨h1, h2, h3⟩ := filter_codec_table n hn hi
  rw [createUI_filter_bar, filter_bar_valueChanged_filter]
  exact ⟨h1, h2, h3⟩

/-- C13 (witness): index 3 ("Blue") on the sample session: mask 4, position 3. -/
theorem filter_codec_round_trip_witness :
    (3 : Fin 256).val ≤ 3 ∧
    (filter_bar_valueChanged 3 sample_gui).config.profile.filter = 4 ∧
    (createUI scenario (filter_bar_valueChanged 3 sample_gui)).filter_bar = 3 :=
  ⟨by decide, by decide,
   (filter_codec_round_trip scenario 3 sample_gui (by decide)).2.2⟩

theorem writes_only_refl (f : Field) (s : FizeauOverlayGui) : writes_only f s s := by
  simp [writes_only, ColorSettings.same_except]

theorem writes_only_assign (f : Field) (s : FizeauOverlayGui)
    (u : ColorSettings → ColorSettings)
    (hu : ∀ c, ColorSettings.same_except f (u c) c) : writes_only f s (s.assign u) := by
  unfold writes_only FizeauOverlayGui.assign
  cases hd : s.is_day <;> simp [hu]

theorem writes_only_congr (f : Field) (s g g' : FizeauOverlayGui) (hd : g'.is_day = g.is_day)
    (hc : g'.config = g.config) (h : writes_only f s g) : writes_only f s g' := by
  unfold writes_only at h ⊢
  rw [hd, hc]
  exact h

theorem valueChanged_writes_only (L : Limits) (f : Field) (val : Fin 256)
    (s : FizeauOverlayGui) : writes_only f s (valueChanged L f.slider val s) := by
  cases f <;>
    refine writes_only_congr _ s (s.assign _) _ rfl rfl (writes_only_assign _ s _ ?_) <;>
    intro c <;> refine ⟨rfl, fun f' hf' => ?_⟩ <;> cases f' <;> first | rfl | exact absurd rfl hf'

theorem valueChanged_get (L : Limits) (f : Field) (val : Fin 256) (s : FizeauOverlayGui) :
    (valueChanged L f.slider val s).settings.get f =
      L.decoded s.enable_extra_hot_temps val f := by
  cases f <;>
    simp [Field.slider, valueChanged, temp_slider_valueChanged, sat_slider_valueChanged,
      hue_slider_valueChanged, contrast_slider_valueChanged, gamma_slider_valueChanged,
      luma_slider_valueChanged, ColorSettings.get, Limits.decoded,
      FizeauOverlayGui.settings, FizeauOverlayGui.assign] <;>
    cases s.is_day <;> simp

theorem assign_congr_config {s s' : FizeauOverlayGui} (hd : s'.is_day = s.is_day)
    (hc : s'.config = s.config) (u : ColorSettings → ColorSettings) :
    (s'.assign u).config = (s.assign u).config := by
  unfold FizeauOverlayGui.assign
  rw [hd]
  cases s.is_day <;> simp [hc]

theorem writes_only_click (f : Field) (s s' : FizeauOverlayGui)
    (u : ColorSettings → ColorSettings) (apply_rc : Result) (hd : s'.is_day = s.is_day)
    (hc : s'.config = s.config) (hu : ∀ c, ColorSettings.same_except f (u c) c) :
    writes_only f s (apply_now apply_rc (s'.assign u)).gui := by
  refine writes_only_congr f s (s.assign u) _ ?_ ?_ (writes_only_assign f s u hu)
  · simp [apply_now, hd]
  · exact assign_congr_config hd hc u

theorem slider_click_writes_only (L : Limits) (f : Field) (keys : Nat) (apply_rc : Result)
    (s : FizeauOverlayGui) :
    writes_only f s (slider_click L f.slider keys apply_rc s).gui := by
  by_cases hy : pressed keys HidNpadButton_Y = true
  · cases f <;>
      simp only [Field.slider, slider_click, temp_slider_click, sat_slider_click,
        hue_slider_click, contrast_slider_click, gamma_slider_click, luma_slider_click, hy,
        if_true] <;>
      refine writes_only_click _ s _ _ _ rfl rfl ?_ <;>
      intro c <;> refine ⟨rfl, fun f' hf' => ?_⟩ <;> cases f' <;>
      first | rfl | exact absurd rfl hf'
  · simp only [Bool.not_eq_true] at hy
    rw [slider_click_not_pressed L f.slider keys apply_rc s hy]
    exact writes_only_refl f s

theorem slider_click_get (L : Limits) (f : Field) (keys : Nat) (apply_rc : Result)
    (s : FizeauOverlayGui) (hy : pressed keys HidNpadButton_Y = true) :
    (slider_click L f.slider keys apply_rc s).gui.settings.get f = L.default_of f := by
  cases f <;>
    simp [Field.slider, slider_click, temp_slider_click, sat_slider_click,
      hue_slider_click, contrast_slider_click, gamma_slider_click, luma_slider_click, hy,
      apply_now, ColorSettings.get, Limits.default_of,
      FizeauOverlayGui.settings, FizeauOverlayGui.assign] <;>
    cases s.is_day <;> simp

/-- C14: for each of the six numeric fields and every session state, the value-changed
listener of the field and its reset-to-default handler (the click listener, whatever
the keys) change at most that field of `day_settings` when `is_day` is true and at
most that field of `night_settings` when `is_day` is false: the settings of the other
period, the other members of the selected settings, components, filter and the rest
of the configuration are unchanged. The field of the selected settings holds the
decoded slider value after the value-changed listener and `DEFAULT_x` after the click
listener with `Y` pressed. -/
theorem numeric_writes_selected_period (L : Limits) (f : Field) (val : Fin 256) (keys : Nat)
    (apply_rc : Result) (s : FizeauOverlayGui) :
    writes_only f s (valueChanged L f.slider val s) ∧
    (valueChanged L f.slider val s).settings.get f =
      L.decoded s.enable_extra_hot_temps val f ∧
    writes_only f s (slider_click L f.slider keys apply_rc s).gui ∧
    (pressed keys HidNpadButton_Y = true →
      (slider_click L f.slider keys apply_rc s).gui.settings.get f = L.default_of f) :=
  ⟨valueChanged_writes_only L f val s, valueChanged_get L f val s,
   slider_click_writes_only L f keys apply_rc s, slider_click_get L f keys apply_rc s⟩

/-- C14 (witness): the gamma field on the sample session (day period): the night
settings are untouched by an edit, and `Y` resets the day gamma to `DEFAULT_GAMMA`. -/
theorem numeric_writes_selected_period_witness :
    sample_gui.is_day = true ∧ pressed 8 HidNpadButton_Y = true ∧
    (valueChanged scenario Field.gamma.slider 50 sample_gui).config.profile.night_settings =
      sample_gui.config.profile.night_settings ∧
    (slider_click scenario Field.gamma.slider 8 0 sample_gui).gui.settings.get Field.gamma =
      scenario.default_of Field.gamma :=
  ⟨by decide, by decide,
   ((numeric_writes_selected_period scenario Field.gamma 50 8 0 sample_gui).1.2.2.2.2.2.2.2.1
      (by decide)).1,
   (numeric_writes_selected_period scenario Field.gamma 50 8 0 sample_gui).2.2.2 (by decide)⟩

/-! ### The temperature bound after a reset -/

theorem valueChanged_hot (L : Limits) (w : Slider) (val : Fin 256) (s : FizeauOverlayGui) :
    (valueChanged L w val s).enable_extra_hot_temps = s.enable_extra_hot_temps := by
  cases w <;>
    simp [valueChanged, temp_slider_valueChanged, sat_slider_valueChanged,
      hue_slider_valueChanged, components_bar_valueChanged, filter_bar_valueChanged,
      contrast_slider_valueChanged, gamma_slider_valueChanged, luma_slider_valueChanged,
      FizeauOverlayGui.set_components, FizeauOverlayGui.set_filter]

theorem slider_click_hot (L : Limits) (w : Slider) (keys : Nat) (apply_rc : Result)
    (s : FizeauOverlayGui) :
    (slider_click L w keys apply_rc s).gui.enable_extra_hot_temps =
      s.enable_extra_hot_temps := by
  by_cases hy : pressed keys HidNpadButton_Y = true
  · cases w <;>
      simp [slider_click, temp_slider_click, sat_slider_click, hue_slider_click,
        components_bar_click, filter_bar_click, contrast_slider_click, gamma_slider_click,
        luma_slider_click, hy, apply_now, FizeauOverlayGui.set_components,
        FizeauOverlayGui.set_filter]
  · simp only [Bool.not_eq_true] at hy
    rw [slider_click_not_pressed L w keys apply_rc s hy]
    rfl

theorem reset_button_click_hot (L : Limits) (keys : Nat) (apply_rc : Result)
    (s : FizeauOverlayGui) :
    (reset_button_click L keys apply_rc s).gui.enable_extra_hot_temps =
      s.enable_extra_hot_temps := by
  by_cases ha : pressed keys HidNpadButton_A = true
  · simp [reset_button_click, ha, apply_now, FizeauOverlayGui.set_components,
      FizeauOverlayGui.set_filter]
  · simp only [Bool.not_eq_true] at ha
    simp [reset_button_click, ha, not_handled]

theorem range_button_click_hot (L : Limits) (keys : Nat) (apply_rc : Result)
    (s : FizeauOverlayGui) :
    (range_button_click L keys apply_rc s).gui.enable_extra_hot_temps =
      s.enable_extra_hot_temps := by
  by_cases ha : pressed keys HidNpadButton_A = true
  · by_cases hf : is_full L s.settings.range = true <;>
      simp [range_button_click, ha, hf, apply_now]
  · simp only [Bool.not_eq_true] at ha
    simp [range_button_click, ha, not_handled]

theorem advance_hot (apply_rc : Result) (s : FizeauOverlayGui) :
    (advance apply_rc s).1.enable_extra_hot_temps = s.enable_extra_hot_temps := by
  unfold advance
  by_cases hp : s.pending_apply = true
  · by_cases hc : s.apply_counter + 1 ≥ 3 <;> simp [hp, hc]
  · simp [hp]

theorem step_hot (L : Limits) (s : FizeauOverlayGui) (a : Action) :
    (step L s a).1.enable_extra_hot_temps = s.enable_extra_hot_temps := by
  cases a with
  | edit w val => exact valueChanged_hot L w val s
  | click w keys apply_rc => exact slider_click_hot L w keys apply_rc s
  | reset keys apply_rc => exact reset_button_click_hot L keys apply_rc s
  | range keys apply_rc => exact range_button_click_hot L keys apply_rc s
  | active keys rc =>
      by_cases hk : pressed keys HidNpadButton_A = true
      · simp [step, active_button_click, hk]
      · simp only [Bool.not_eq_true] at hk
        simp [step, active_button_click, hk, not_handled]
  | tick clock apply_rc => simp [step, update, advance_is_day, advance_hot]

theorem run_hot (L : Limits) : ∀ (l : List Action) (s : FizeauOverlayGui),
    (run L s l).1.enable_extra_hot_temps = s.enable_extra_hot_temps
  | [], _ => rfl
  | a :: rest, s => by rw [run_cons, run_hot L rest, step_hot]

theorem session_hot (L : Limits) (init : FizeauOverlayGui) (l : List Action) :
    (session L init l).enable_extra_hot_temps =
      decide (init.settings.temperature > L.D65_TEMP) := by
  unfold session
  rw [run_hot]
  rfl

theorem reset_button_click_temperature (L : Limits) (keys : Nat) (apply_rc : Result)
    (s : FizeauOverlayGui) (ha : pressed keys HidNpadButton_A = true) :
    (reset_button_click L keys apply_rc s).gui.settings.temperature = L.DEFAULT_TEMP ∧
    (reset_button_click L keys apply_rc s).gui.temp_slider =
      temp_progress L s.enable_extra_hot_temps L.DEFAULT_TEMP := by
  cases hd : s.is_day <;>
    simp [reset_button_click, ha, apply_now, FizeauOverlayGui.settings,
      FizeauOverlayGui.assign, FizeauOverlayGui.set_components, FizeauOverlayGui.set_filter,
      hd]

theorem temp_slider_click_temperature (L : Limits) (keys : Nat) (apply_rc : Result)
    (s : FizeauOverlayGui) (hy : pressed keys HidNpadButton_Y = true) :
    (temp_slider_click L keys apply_rc s).gui.settings.temperature = L.DEFAULT_TEMP := by
  cases hd : s.is_day <;>
    simp [temp_slider_click, hy, apply_now, FizeauOverlayGui.settings,
      FizeauOverlayGui.assign, hd]

/-- C11 (amended): the bound is chosen once, in `createUI`, and never recomputed. In
every session, after "Reset settings" (with `A`) or the temperature reset-to-default
handler (with `Y`) the stored temperature of the current period is `DEFAULT_TEMP`, and
the upper bound used afterwards is still the one of UI creation, `MAX_TEMP` if the
temperature stored when the UI was created exceeded `D65_TEMP` and `D65_TEMP`
otherwise: "Reset settings" encodes the slider position of `DEFAULT_TEMP` against it
and later slider values are decoded against it after either handler. -/
theorem reset_keeps_creation_bound (L : Limits) (init : FizeauOverlayGui) (l : List Action)
    (keys : Nat) (apply_rc : Result) (val : Fin 256) :
    (createUI L init).enable_extra_hot_temps =
      decide (init.settings.temperature > L.D65_TEMP) ∧
    (pressed keys HidNpadButton_A = true →
      (reset_button_click L keys apply_rc (session L init l)).gui.settings.temperature =
        L.DEFAULT_TEMP ∧
      (reset_button_click L keys apply_rc (session L init l)).gui.temp_slider =
        temp_progress L (createUI L init).enable_extra_hot_temps L.DEFAULT_TEMP ∧
      (valueChanged L Slider.temp val
        (reset_button_click L keys apply_rc (session L init l)).gui).settings.temperature =
        temp_value L (createUI L init).enable_extra_hot_temps val) ∧
    (pressed keys HidNpadButton_Y = true →
      (temp_slider_click L keys apply_rc (session L init l)).gui.settings.temperature =
        L.DEFAULT_TEMP ∧
      (valueChanged L Slider.temp val
        (temp_slider_click L keys apply_rc (session L init l)).gui).settings.temperature =
        temp_value L (createUI L init).enable_extra_hot_temps val) := by
  have hs : (session L init l).enable_extra_hot_temps =
      (createUI L init).enable_extra_hot_temps := by
    rw [session_hot]; rfl
  refine ⟨rfl, fun ha => ?_, fun hy => ?_⟩
  · obtain ⟨h1, h2⟩ := reset_button_click_temperature L keys apply_rc (session L init l) ha
    refine ⟨h1, by rw [h2, hs], ?_⟩
    rw [valueChanged_temp_settings, reset_button_click_hot, hs]
  · refine ⟨temp_slider_click_temperature L keys apply_rc (session L init l) hy, ?_⟩
    have := slider_click_hot L Slider.temp keys apply_rc (session L init l)
    simp only [slider_click] at this
    rw [valueChanged_temp_settings, this, hs]

/-- C11 (witness): the UI created on the sample members (8000 K stored, bound
`MAX_TEMP`), one edit and one tick, then "Reset settings": the position of 6500 K is
encoded against 20000 K, and the slider value 100 is later decoded to 20000 K. -/
theorem reset_keeps_creation_bound_witness :
    pressed 1 HidNpadButton_A = true ∧
    (reset_button_click scenario 1 0
      (session scenario (FizeauOverlayGui.ctor sample_members)
        [Action.edit Slider.temp 10, Action.tick always_day 0])).gui.temp_slider =
      temp_progress scenario
        (createUI scenario (FizeauOverlayGui.ctor sample_members)).enable_extra_hot_temps
        scenario.DEFAULT_TEMP ∧
    temp_progress scenario
        (createUI scenario (FizeauOverlayGui.ctor sample_members)).enable_extra_hot_temps
        scenario.DEFAULT_TEMP = 28 ∧
    temp_value scenario
        (createUI scenario (FizeauOverlayGui.ctor sample_members)).enable_extra_hot_temps
        100 = 20000 :=
  ⟨by decide,
   ((reset_keeps_creation_bound scenario (FizeauOverlayGui.ctor sample_members)
      [Action.edit Slider.temp 10, Action.tick always_day 0] 1 0 100).2.1 (by decide)).2.1,
   by decide, by decide⟩

/-- C11 (counterexample): the sample session was created with 8000 K stored. After
"Reset settings" the stored temperature is 6500 K, which does not exceed
`D65_TEMP = 6500`, yet the bound in use is 20000 and not 6500: the slider position is 28
(it would be 100 against 6500) and the slider value 100 is decoded to 20000 K (it
would be 6500 K). After the temperature reset-to-default handler the slider value 100
is decoded to 20000 K as well. -/
theorem reset_bound_not_recomputed :
    (reset_button_click scenario 1 0 sample_gui).gui.settings.temperature = 6500 ∧
    ¬ ((reset_button_click scenario 1 0 sample_gui).gui.settings.temperature >
      scenario.D65_TEMP) ∧
    temp_bound scenario (reset_button_click scenario 1 0 sample_gui).gui.enable_extra_hot_temps =
      20000 ∧
    (reset_button_click scenario 1 0 sample_gui).gui.temp_slider = 28 ∧
    encode 6500 scenario.MIN_TEMP scenario.D65_TEMP = 100 ∧
    (valueChanged scenario Slider.temp 100
      (reset_button_click scenario 1 0 sample_gui).gui).settings.temperature = 20000 ∧
    decode 100 scenario.MIN_TEMP scenario.D65_TEMP = 6500 ∧
    (temp_slider_click scenario 8 0 sample_gui).gui.settings.temperature = 6500 ∧
    (valueChanged scenario Slider.temp 100
      (temp_slider_click scenario 8 0 sample_gui).gui).settings.temperature = 20000 := by
  decide

end Fizeau
